import Mathlib

/-!
Verification development for the RangefinderMovement repository
(SW/RangeFinderServo/rf_motor.c and SW/RangeFinderServo/pwmtest2.c).

The C globals are 16-bit unsigned shorts and 8-bit unsigned chars.  We model
the numeric globals as Nat and perform every `++` and `--` of the source
through `inc16` and `dec16`, which reduce modulo 2^16 exactly as the C
`unsigned short` arithmetic does.  Decrements that the source guards with a
nonzero test are written as guarded `n - 1`, matching the source control flow.
Flags that only ever hold TRUE (1) or FALSE (0) are modelled as Bool.

The two interrupt contexts and the foreground loop are modelled as three step
functions on a single state record (one per entry point of the source); a
system run is a fold of an arbitrary event list over them.
-/

set_option maxHeartbeats 1000000

namespace RfMotor

/-- PWM1_MAXSTEP of rf_motor.c line 59. -/
def PWM1_MAXSTEP : Nat := 2000

/-- PWMINITIALVALUE of rf_motor.c line 60. -/
def PWMINITIALVALUE : Nat := 161

/-- POSIT_START of rf_motor.c line 61. -/
def POSIT_START : Nat := 161

/-- POSIT_END of rf_motor.c line 62. -/
def POSIT_END : Nat := 78

/-- SPEED of rf_motor.c line 63. -/
def SPEED : Nat := 3000

/-- COUNTHIGH of rf_motor.c line 65. -/
def COUNTHIGH : Nat := 625

/-- COUNTLOW of rf_motor.c line 66. -/
def COUNTLOW : Nat := 624

/-- COUNTOLER of rf_motor.c line 67. -/
def COUNTOLER : Nat := 10

/-- VALIDATE_RF of rf_motor.c line 69. -/
def VALIDATE_RF : Nat := 10

/-- WAITEND_RF of rf_motor.c line 70. -/
def WAITEND_RF : Nat := 10

/-- IGNORE_RF of rf_motor.c line 71. -/
def IGNORE_RF : Nat := 1000

/-- PRESCALER of rf_motor.c line 73. -/
def PRESCALER : Nat := 100

/-- Positioning state POSIT (rf_motor.c line 87). -/
def POSIT : Nat := 0

/-- Positioning state MOVINGUP (rf_motor.c line 88). -/
def MOVINGUP : Nat := 1

/-- Positioning state MOVINGDOWN (rf_motor.c line 89). -/
def MOVINGDOWN : Nat := 2

/-- Positioning state WAITINGUP (rf_motor.c line 90). -/
def WAITINGUP : Nat := 3

/-- Positioning state WAITINGDOWN (rf_motor.c line 91). -/
def WAITINGDOWN : Nat := 4

/-- Detection state IDLE (rf_motor.c line 93). -/
def IDLE : Nat := 0

/-- Detection state DETHIGH (rf_motor.c line 94). -/
def DETHIGH : Nat := 1

/-- Detection state DETLOW (rf_motor.c line 95). -/
def DETLOW : Nat := 2

/-- Detection state DETEND (rf_motor.c line 96). -/
def DETEND : Nat := 3

/-- Confirmation state VALIDATE (rf_motor.c line 98). -/
def VALIDATE : Nat := 1

/-- Confirmation state WAITDETEND (rf_motor.c line 99). -/
def WAITDETEND : Nat := 2

/-- Confirmation state IGNORE (rf_motor.c line 100). -/
def IGNORE : Nat := 3

/-- Increment of a C unsigned short, reducing modulo 2^16. -/
def inc16 (n : Nat) : Nat := (n + 1) % 65536

/-- Decrement of a C unsigned short, reducing modulo 2^16. -/
def dec16 (n : Nat) : Nat := (n + 65535) % 65536

/-- The global variables of rf_motor.c (lines 129 to 144) together with the
output latches of port 1 that the code writes: the PWM output pin P1.2, the
LED pin P1.0, and the P1.6 interrupt enable bit P1IE.BIT6. -/
structure Sys where
  Pwm1_reach : Nat
  Pwm1_dc : Nat
  Pwm1_cn : Nat
  Pwm1_State : Nat
  Pwm1_delay : Nat
  RfDetState : Nat
  RfDetCounter : Nat
  RfDetected : Bool
  RfDetConfirmSt : Nat
  RfPrescaler : Nat
  RfLongDelay : Nat
  RfShortDelay : Nat
  Command : Bool
  pwm1out : Bool
  led : Bool
  p1ie6 : Bool
  deriving DecidableEq, Repr

/-- The RF detection switch of Timer_A (rf_motor.c lines 469 to 554).
The argument `line` is the sampled level of input P1.6 (P1IN and BIT6).
The cases IDLE and default of the C switch do nothing. -/
def rfDetStep (line : Bool) (s : Sys) : Sys :=
  if s.RfDetState = DETHIGH then
    (if line = true then
      (if s.RfDetCounter < COUNTHIGH then
        { s with RfDetCounter := inc16 s.RfDetCounter }
      else
        { s with RfDetState := DETLOW, RfDetCounter := 0 })
    else
      (if s.RfDetCounter ≥ COUNTHIGH - COUNTOLER then
        { s with RfDetState := DETLOW, RfDetCounter := 0 }
      else
        { s with RfDetState := DETEND, RfDetected := false }))
  else if s.RfDetState = DETLOW then
    (if line = false then
      (if s.RfDetCounter < COUNTLOW then
        { s with RfDetCounter := inc16 s.RfDetCounter }
      else
        { s with RfDetState := DETEND, RfDetCounter := 0, RfDetected := true })
    else
      (if s.RfDetCounter ≥ COUNTLOW - COUNTOLER then
        { s with RfDetState := DETEND, RfDetCounter := 0, RfDetected := true }
      else
        { s with RfDetState := DETEND, RfDetected := false }))
  else if s.RfDetState = DETEND then
    (if line = true then { s with RfDetState := IDLE, p1ie6 := true } else s)
  else s

/-- The delay and prescaler management of Timer_A (rf_motor.c lines 558 to 582):
Pwm1_delay, RfShortDelay and the prescaled RfLongDelay are counted down. -/
def delayStep (s : Sys) : Sys :=
  let s1 := if s.Pwm1_delay ≠ 0 then { s with Pwm1_delay := s.Pwm1_delay - 1 } else s
  let s2 := if s1.RfShortDelay ≠ 0 then { s1 with RfShortDelay := s1.RfShortDelay - 1 } else s1
  if s2.RfPrescaler ≠ 0 then
    { s2 with RfPrescaler := s2.RfPrescaler - 1 }
  else
    { s2 with RfPrescaler := PRESCALER,
              RfLongDelay := if s2.RfLongDelay ≠ 0 then s2.RfLongDelay - 1 else s2.RfLongDelay }

/-- The PWM 1 management of Timer_A (rf_motor.c lines 584 to 605). -/
def pwmStep (s : Sys) : Sys :=
  if s.Pwm1_cn < PWM1_MAXSTEP then
    { s with Pwm1_cn := inc16 s.Pwm1_cn,
             pwm1out := decide (inc16 s.Pwm1_cn ≤ s.Pwm1_dc) }
  else
    { s with Pwm1_cn := 0, pwm1out := false }

/-- One call of the Timer_A interrupt service routine (rf_motor.c lines 460
to 606): the RF detection runs only while Pwm1_State is POSIT, then the delay
counters, then the PWM generation. -/
def timerTick (line : Bool) (s : Sys) : Sys :=
  pwmStep (delayStep (if s.Pwm1_State = POSIT then rfDetStep line s else s))

/-- One call of the Port1_isr interrupt service routine on a rising edge of
P1.6 (rf_motor.c lines 618 to 635).  The interrupt fires only while the P1IE
bit for P1.6 is set; the handler re-checks the line level. -/
def port1Edge (line : Bool) (s : Sys) : Sys :=
  if s.p1ie6 = true ∧ line = true then
    { s with RfDetState := DETHIGH, RfDetCounter := 0, p1ie6 := false }
  else s

/-- The RF command confirmation switch at the top of the main loop
(rf_motor.c lines 170 to 231). -/
def confirmStep (s : Sys) : Sys :=
  if s.RfDetConfirmSt = IDLE then
    (if s.RfDetected = true ∧ s.Pwm1_State = POSIT then
      { s with RfLongDelay := VALIDATE_RF, RfDetConfirmSt := VALIDATE }
    else s)
  else if s.RfDetConfirmSt = VALIDATE then
    (if s.RfDetected = true then
      (if s.RfLongDelay = 0 then
        { s with led := true, RfLongDelay := WAITEND_RF, RfDetConfirmSt := WAITDETEND }
      else s)
    else { s with RfDetConfirmSt := IDLE })
  else if s.RfDetConfirmSt = WAITDETEND then
    (if s.RfDetected = false then
      (if s.RfLongDelay = 0 then
        { s with led := false, Command := true,
                 RfDetConfirmSt := IGNORE, RfLongDelay := IGNORE_RF }
      else s)
    else { s with RfLongDelay := WAITEND_RF })
  else if s.RfDetConfirmSt = IGNORE then
    (if s.RfLongDelay = 0 then { s with RfDetConfirmSt := IDLE, Command := false } else s)
  else
    { s with RfShortDelay := 0, RfLongDelay := 0, RfDetConfirmSt := IDLE }

/-- The goal assignment of the POSIT case (rf_motor.c lines 262 to 284): the
else-if cascade that picks Pwm1_reach from Pwm1_dc; when no branch fires the
variable keeps its old value. -/
def positGoal (s : Sys) : Sys :=
  if s.Pwm1_dc = POSIT_START then { s with Pwm1_reach := POSIT_END }
  else if s.Pwm1_dc < POSIT_START then { s with Pwm1_reach := POSIT_START }
  else if s.Pwm1_dc > POSIT_START then
    (if s.Pwm1_dc = POSIT_END then { s with Pwm1_reach := POSIT_START }
     else if s.Pwm1_dc > POSIT_END then { s with Pwm1_reach := POSIT_END }
     else if s.Pwm1_dc < POSIT_END then { s with Pwm1_reach := POSIT_END }
     else s)
  else s

/-- The direction choice of the POSIT case (rf_motor.c lines 286 to 289). -/
def positDir (s : Sys) : Sys :=
  if s.Pwm1_reach > s.Pwm1_dc then { s with Pwm1_State := MOVINGUP }
  else { s with Pwm1_State := MOVINGDOWN }

/-- The whole POSIT case of the positioning switch (rf_motor.c lines 256 to
290): reset Command, assign the goal, choose the direction. -/
def positDefault (s : Sys) : Sys :=
  positDir (positGoal { s with Command := false })

/-- The positioning block of the main loop (rf_motor.c lines 243 to 330).
The argument `button` is the value returned by testButton(S2_BUTTON).  The C
switch dispatches on the value of Pwm1_State; its `default` label shares the
POSIT branch, so every value outside MOVINGUP..WAITINGDOWN takes that branch. -/
def positStep (button : Bool) (s : Sys) : Sys :=
  if button = true ∨ s.Command = true ∨ s.Pwm1_State = MOVINGUP ∨
     s.Pwm1_State = MOVINGDOWN ∨ s.Pwm1_State = WAITINGUP ∨ s.Pwm1_State = WAITINGDOWN then
    (if s.Pwm1_State = MOVINGUP then
      (if s.Pwm1_dc = s.Pwm1_reach then
        { s with Command := false, Pwm1_State := POSIT }
      else
        { s with Pwm1_State := WAITINGUP, Pwm1_delay := SPEED, Pwm1_dc := inc16 s.Pwm1_dc })
    else if s.Pwm1_State = MOVINGDOWN then
      (if s.Pwm1_dc = s.Pwm1_reach then
        { s with Command := false, Pwm1_State := POSIT }
      else
        { s with Pwm1_State := WAITINGDOWN, Pwm1_delay := SPEED, Pwm1_dc := dec16 s.Pwm1_dc })
    else if s.Pwm1_State = WAITINGUP then
      (if s.Pwm1_delay = 0 then { s with Pwm1_State := MOVINGUP } else s)
    else if s.Pwm1_State = WAITINGDOWN then
      (if s.Pwm1_delay = 0 then { s with Pwm1_State := MOVINGDOWN } else s)
    else positDefault s)
  else s

/-- One iteration of the main foreground loop (rf_motor.c lines 155 to 331):
the confirmation switch followed by the positioning block. -/
def mainStep (button : Bool) (s : Sys) : Sys :=
  positStep button (confirmStep s)

/-- An event of the system: one main loop iteration (with the debounced
button reading), one Timer_A interrupt (with the sampled P1.6 level), or one
Port1 edge interrupt (with the sampled P1.6 level). -/
inductive Ev where
  | emain (button : Bool)
  | etick (line : Bool)
  | eedge (line : Bool)
  deriving DecidableEq, Repr

/-- Dispatch one event. -/
def step : Ev → Sys → Sys
  | Ev.emain b, s => mainStep b s
  | Ev.etick l, s => timerTick l s
  | Ev.eedge l, s => port1Edge l s

/-- Run a list of events from a state. -/
def run (evs : List Ev) (s : Sys) : Sys :=
  evs.foldl (fun t e => step e t) s

/-- The state established by Init (rf_motor.c lines 341 to 402) together with
the C zero initialization of the globals that Init does not write
(Pwm1_delay) and the reset of P1OUT.  Init enables the P1.6 interrupt. -/
def initSys : Sys :=
  { Pwm1_reach := PWMINITIALVALUE
    Pwm1_dc := PWMINITIALVALUE
    Pwm1_cn := 0
    Pwm1_State := POSIT
    Pwm1_delay := 0
    RfDetState := IDLE
    RfDetCounter := 0
    RfDetected := false
    RfDetConfirmSt := IDLE
    RfPrescaler := PRESCALER
    RfLongDelay := 0
    RfShortDelay := 0
    Command := false
    pwm1out := false
    led := false
    p1ie6 := true }

/-- Canonical fair schedule for one positioning motion: after a motion has
been triggered, each round performs the main iteration that takes the step
(MOVING to WAITING), then SPEED timer interrupts that count Pwm1_delay down
to zero, then the main iteration that re-enters the MOVING state.  The fuel
is the number of duty cycle steps still to take; the last main iteration
observes Pwm1_dc equal to Pwm1_reach and returns to POSIT. -/
def cycleStep (s : Sys) : Sys :=
  mainStep false ((timerTick false)^[SPEED] (mainStep false s))

/-- Run the canonical schedule: n full step cycles, then the final main
iteration that observes Pwm1_dc equal to Pwm1_reach and returns to POSIT. -/
def runSteps (n : Nat) (s : Sys) : Sys :=
  mainStep false (cycleStep^[n] s)

/-- A qualifying trigger (button press) from rest followed by the canonical
schedule of the resulting motion, run for exactly the number of duty cycle
units between the current duty cycle and the computed target. -/
def triggerRun (s : Sys) : Sys :=
  let s1 := mainStep true s
  if s1.Pwm1_State = MOVINGUP then runSteps (s1.Pwm1_reach - s1.Pwm1_dc) s1
  else runSteps (s1.Pwm1_dc - s1.Pwm1_reach) s1

/-- The state of the command confirmation machine alone: the fields of Sys
that the confirmation switch (rf_motor.c lines 170 to 231) and the delay
countdown part of Timer_A (rf_motor.c lines 566 to 582) read and write.
RfDetected is produced elsewhere (by the RF envelope qualifier), so here it
is an input of each main loop observation rather than a state field. -/
structure CSt where
  st : Nat
  longDelay : Nat
  shortDelay : Nat
  prescaler : Nat
  command : Bool
  led : Bool
  deriving DecidableEq, Repr

/-- An event of the confirmation machine: one main loop observation with the
sampled values of RfDetected and of the test Pwm1_State == POSIT, or one
Timer_A countdown. -/
inductive CEv where
  | cmain (det : Bool) (posit : Bool)
  | ctick
  deriving DecidableEq, Repr

/-- The confirmation switch of the main loop (rf_motor.c lines 170 to 231)
with RfDetected and the POSIT test as inputs. -/
def cmainStep (det posit : Bool) (s : CSt) : CSt :=
  if s.st = IDLE then
    (if det = true ∧ posit = true then
      { s with longDelay := VALIDATE_RF, st := VALIDATE }
    else s)
  else if s.st = VALIDATE then
    (if det = true then
      (if s.longDelay = 0 then
        { s with led := true, longDelay := WAITEND_RF, st := WAITDETEND }
      else s)
    else { s with st := IDLE })
  else if s.st = WAITDETEND then
    (if det = false then
      (if s.longDelay = 0 then
        { s with led := false, command := true, st := IGNORE, longDelay := IGNORE_RF }
      else s)
    else { s with longDelay := WAITEND_RF })
  else if s.st = IGNORE then
    (if s.longDelay = 0 then { s with st := IDLE, command := false } else s)
  else
    { s with shortDelay := 0, longDelay := 0, st := IDLE }

/-- The countdown part of Timer_A restricted to the confirmation fields
(rf_motor.c lines 566 to 582). -/
def ctickStep (s : CSt) : CSt :=
  let s1 := if s.shortDelay ≠ 0 then { s with shortDelay := s.shortDelay - 1 } else s
  if s1.prescaler ≠ 0 then
    { s1 with prescaler := s1.prescaler - 1 }
  else
    { s1 with prescaler := PRESCALER,
              longDelay := if s1.longDelay ≠ 0 then s1.longDelay - 1 else s1.longDelay }

/-- Dispatch one confirmation event. -/
def cstep : CEv → CSt → CSt
  | CEv.cmain d p, s => cmainStep d p s
  | CEv.ctick, s => ctickStep s

/-- Run a list of confirmation events. -/
def crun (evs : List CEv) (s : CSt) : CSt :=
  evs.foldl (fun t e => cstep e t) s

/-- The confirmation fields of initSys. -/
def cInit : CSt :=
  { st := IDLE, longDelay := 0, shortDelay := 0, prescaler := PRESCALER,
    command := false, led := false }

/-- Number of RfLongDelay countdown opportunities (prescaler expirations) in
an event list, starting from a given prescaler value: RfLongDelay loses at
most one unit per such expiration. -/
def fires (p : Nat) : List CEv → Nat
  | [] => 0
  | CEv.cmain _ _ :: evs => fires p evs
  | CEv.ctick :: evs => if p ≠ 0 then fires (p - 1) evs else 1 + fires PRESCALER evs

/-- Every main observation in the list reads RfDetected as true. -/
def allDetTrue (evs : List CEv) : Prop :=
  ∀ d p, CEv.cmain d p ∈ evs → d = true

/-- Number of events of a run at which command rises from false to true. -/
def cmdRises : List CEv → CSt → Nat
  | [], _ => 0
  | e :: evs, s =>
      (if s.command = false ∧ (cstep e s).command = true then 1 else 0) + cmdRises evs (cstep e s)

/-- One full long delay unit of ticks: with the prescaler at PRESCALER, the
prescaler expires exactly once in PRESCALER + 1 ticks and returns to
PRESCALER. -/
def unitEvs : List CEv := List.replicate (PRESCALER + 1) CEv.ctick

/-- Canonical successful confirmation schedule: one observation of a detected
carrier at rest, then VALIDATE_RF long delay units each followed by a main
observation still detecting the carrier, then WAITEND_RF long delay units
each followed by a main observation of the ceased carrier.  The last
observation emits the command. -/
def confirmEvs : List CEv :=
  CEv.cmain true true ::
    (List.flatten (List.replicate VALIDATE_RF (unitEvs ++ [CEv.cmain true true])) ++
     List.flatten (List.replicate WAITEND_RF (unitEvs ++ [CEv.cmain false true])))

end RfMotor

namespace Pwmtest2

/-- PWM1_MAXSTEP of pwmtest2.c line 46. -/
def PWM1_MAXSTEP : Nat := 2000

/-- PWMINITIALVALUE of pwmtest2.c line 47. -/
def PWMINITIALVALUE : Nat := 36

/-- POSIT1 of pwmtest2.c line 48. -/
def POSIT1 : Nat := 78

/-- POSIT2 of pwmtest2.c line 49. -/
def POSIT2 : Nat := 161

/-- SPEED of pwmtest2.c line 50. -/
def SPEED : Nat := 3000

/-- State RESET of pwmtest2.c line 57. -/
def RESET : Nat := 0

/-- State POSIT of pwmtest2.c line 58. -/
def POSIT : Nat := 1

/-- State POSITOLD of pwmtest2.c line 59. -/
def POSITOLD : Nat := 2

/-- State MOVINGUP of pwmtest2.c line 60. -/
def MOVINGUP : Nat := 3

/-- State MOVINGDOWN of pwmtest2.c line 61. -/
def MOVINGDOWN : Nat := 4

/-- State WAITINGUP of pwmtest2.c line 62. -/
def WAITINGUP : Nat := 5

/-- State WAITINGDOWN of pwmtest2.c line 63. -/
def WAITINGDOWN : Nat := 6

/-- State INCREASE of pwmtest2.c line 64. -/
def INCREASE : Nat := 7

/-- State DECREASE of pwmtest2.c line 65. -/
def DECREASE : Nat := 8

/-- The global variables of pwmtest2.c (lines 83 to 87) plus the output
latches the code writes (PWM pin P1.2 and LED pin P1.0). -/
structure P2 where
  Pwm1_reach : Nat
  Pwm1_dc : Nat
  Pwm1_cn : Nat
  Pwm1_State : Nat
  Pwm1_delay : Nat
  pwm1out : Bool
  led : Bool
  deriving DecidableEq, Repr

/-- The S1 switch of the pwmtest2.c main loop (lines 111 to 149): S1 cycles
the mode; the moving and waiting states ignore it. -/
def s1Switch (s : P2) : P2 :=
  if s.Pwm1_State = POSIT then { s with Pwm1_State := POSITOLD }
  else if s.Pwm1_State = POSITOLD then { s with Pwm1_State := INCREASE }
  else if s.Pwm1_State = INCREASE then { s with Pwm1_State := DECREASE }
  else if s.Pwm1_State = DECREASE then { s with Pwm1_State := RESET }
  else if s.Pwm1_State = MOVINGUP ∨ s.Pwm1_State = MOVINGDOWN ∨
          s.Pwm1_State = WAITINGUP ∨ s.Pwm1_State = WAITINGDOWN then s
  else { s with Pwm1_State := POSIT }

/-- The S2 switch of the pwmtest2.c main loop (lines 160 to 250).  The RESET
case shares the default label, so every value outside POSIT..DECREASE takes
that branch. -/
def s2Switch (s : P2) : P2 :=
  if s.Pwm1_State = POSIT then
    (if s.Pwm1_dc = POSIT1 then
      { s with Pwm1_reach := POSIT2, Pwm1_State := MOVINGUP }
    else if s.Pwm1_dc < POSIT1 then
      { s with Pwm1_reach := POSIT1, Pwm1_State := MOVINGUP }
    else if s.Pwm1_dc > POSIT1 then
      (if s.Pwm1_dc = POSIT2 then
        { s with Pwm1_reach := POSIT1, Pwm1_State := MOVINGDOWN }
      else if s.Pwm1_dc > POSIT2 then
        { s with Pwm1_reach := POSIT2, Pwm1_State := MOVINGDOWN }
      else if s.Pwm1_dc < POSIT2 then
        { s with Pwm1_reach := POSIT2, Pwm1_State := MOVINGUP }
      else s)
    else s)
  else if s.Pwm1_State = POSITOLD then
    (if s.Pwm1_dc ≠ POSIT1 then { s with Pwm1_dc := POSIT1 } else { s with Pwm1_dc := POSIT2 })
  else if s.Pwm1_State = INCREASE then
    (if s.Pwm1_dc < PWM1_MAXSTEP then { s with Pwm1_dc := RfMotor.inc16 s.Pwm1_dc } else s)
  else if s.Pwm1_State = DECREASE then
    (if s.Pwm1_dc > 0 then { s with Pwm1_dc := RfMotor.dec16 s.Pwm1_dc } else s)
  else if s.Pwm1_State = MOVINGUP then
    (if s.Pwm1_dc = s.Pwm1_reach then { s with Pwm1_State := POSIT }
    else
      { s with Pwm1_State := WAITINGUP, Pwm1_delay := SPEED, Pwm1_dc := RfMotor.inc16 s.Pwm1_dc })
  else if s.Pwm1_State = MOVINGDOWN then
    (if s.Pwm1_dc = s.Pwm1_reach then { s with Pwm1_State := POSIT }
    else
      { s with Pwm1_State := WAITINGDOWN, Pwm1_delay := SPEED, Pwm1_dc := RfMotor.dec16 s.Pwm1_dc })
  else if s.Pwm1_State = WAITINGUP then
    (if s.Pwm1_delay = 0 then { s with Pwm1_State := MOVINGUP } else s)
  else if s.Pwm1_State = WAITINGDOWN then
    (if s.Pwm1_delay = 0 then { s with Pwm1_State := MOVINGDOWN } else s)
  else { s with Pwm1_dc := PWMINITIALVALUE }

/-- Gate of the S2 switch (pwmtest2.c lines 151 to 155): the switch body runs
when S2 reports pressed or a motion is in progress. -/
def s2Gate (b2 : Bool) (s : P2) : P2 :=
  if b2 = true ∨ s.Pwm1_State = MOVINGUP ∨ s.Pwm1_State = MOVINGDOWN ∨
     s.Pwm1_State = WAITINGUP ∨ s.Pwm1_State = WAITINGDOWN then
    s2Switch s
  else s

/-- The debug LED range check at the bottom of the loop (pwmtest2.c lines 258
to 261). -/
def ledUpd (s : P2) : P2 :=
  { s with led := decide (36 ≤ s.Pwm1_dc ∧ s.Pwm1_dc ≤ 220) }

/-- One iteration of the pwmtest2.c main loop (lines 97 to 262): the S1
switch when S1 reports pressed, then the gated S2 switch, then the debug LED
range check. -/
def mainStep2 (b1 b2 : Bool) (s : P2) : P2 :=
  ledUpd (s2Gate b2 (if b1 = true then s1Switch s else s))

/-- The bounds and direction invariant of the pwmtest2.c positioning data:
the duty cycle and the goal stay under PWM1_MAXSTEP, and in the moving and
waiting states the duty cycle is on the correct side of the goal. -/
def Inv2 (t : P2) : Prop :=
  t.Pwm1_dc ≤ PWM1_MAXSTEP ∧ t.Pwm1_reach ≤ PWM1_MAXSTEP ∧
  ((t.Pwm1_State = MOVINGUP ∨ t.Pwm1_State = WAITINGUP) → t.Pwm1_dc ≤ t.Pwm1_reach) ∧
  ((t.Pwm1_State = MOVINGDOWN ∨ t.Pwm1_State = WAITINGDOWN) → t.Pwm1_reach ≤ t.Pwm1_dc)

/-- One call of the pwmtest2.c Timer_A interrupt (lines 378 to 401). -/
def timerTick2 (s : P2) : P2 :=
  let s1 := if s.Pwm1_delay ≠ 0 then { s with Pwm1_delay := s.Pwm1_delay - 1 } else s
  if s1.Pwm1_cn < PWM1_MAXSTEP then
    { s1 with Pwm1_cn := RfMotor.inc16 s1.Pwm1_cn,
              pwm1out := decide (RfMotor.inc16 s1.Pwm1_cn ≤ s1.Pwm1_dc) }
  else
    { s1 with Pwm1_cn := 0, pwm1out := false }

/-- An event of pwmtest2: one main loop iteration with the two button
readings, or one Timer_A interrupt. -/
inductive P2Ev where
  | emain (b1 b2 : Bool)
  | etick
  deriving DecidableEq, Repr

/-- Dispatch one pwmtest2 event. -/
def step2 : P2Ev → P2 → P2
  | P2Ev.emain b1 b2, s => mainStep2 b1 b2 s
  | P2Ev.etick, s => timerTick2 s

/-- Run a list of pwmtest2 events. -/
def run2 (evs : List P2Ev) (s : P2) : P2 :=
  evs.foldl (fun t e => step2 e t) s

/-- The state established by the pwmtest2.c Init (lines 268 to 317) plus the
C zero initialization of Pwm1_delay. -/
def initP2 : P2 :=
  { Pwm1_reach := PWMINITIALVALUE
    Pwm1_dc := PWMINITIALVALUE
    Pwm1_cn := 0
    Pwm1_State := RESET
    Pwm1_delay := 0
    pwm1out := false
    led := false }

end Pwmtest2

namespace RfMotor

theorem inc16_eq {n : Nat} (h : n < 65535) : inc16 n = n + 1 := by
  unfold inc16; omega

theorem dec16_eq {n : Nat} (h0 : 0 < n) (h1 : n ≤ 65535) : dec16 n = n - 1 := by
  unfold dec16; omega

@[simp] theorem rfDetStep_Pwm1_State (l : Bool) (s : Sys) :
    (rfDetStep l s).Pwm1_State = s.Pwm1_State := by
  unfold rfDetStep; split_ifs <;> rfl

@[simp] theorem rfDetStep_Pwm1_dc (l : Bool) (s : Sys) :
    (rfDetStep l s).Pwm1_dc = s.Pwm1_dc := by
  unfold rfDetStep; split_ifs <;> rfl

@[simp] theorem rfDetStep_Pwm1_reach (l : Bool) (s : Sys) :
    (rfDetStep l s).Pwm1_reach = s.Pwm1_reach := by
  unfold rfDetStep; split_ifs <;> rfl

@[simp] theorem rfDetStep_Pwm1_cn (l : Bool) (s : Sys) :
    (rfDetStep l s).Pwm1_cn = s.Pwm1_cn := by
  unfold rfDetStep; split_ifs <;> rfl

@[simp] theorem rfDetStep_Pwm1_delay (l : Bool) (s : Sys) :
    (rfDetStep l s).Pwm1_delay = s.Pwm1_delay := by
  unfold rfDetStep; split_ifs <;> rfl

@[simp] theorem rfDetStep_Command (l : Bool) (s : Sys) :
    (rfDetStep l s).Command = s.Command := by
  unfold rfDetStep; split_ifs <;> rfl

@[simp] theorem rfDetStep_RfDetConfirmSt (l : Bool) (s : Sys) :
    (rfDetStep l s).RfDetConfirmSt = s.RfDetConfirmSt := by
  unfold rfDetStep; split_ifs <;> rfl

@[simp] theorem rfDetStep_RfPrescaler (l : Bool) (s : Sys) :
    (rfDetStep l s).RfPrescaler = s.RfPrescaler := by
  unfold rfDetStep; split_ifs <;> rfl

@[simp] theorem rfDetStep_RfLongDelay (l : Bool) (s : Sys) :
    (rfDetStep l s).RfLongDelay = s.RfLongDelay := by
  unfold rfDetStep; split_ifs <;> rfl

@[simp] theorem rfDetStep_RfShortDelay (l : Bool) (s : Sys) :
    (rfDetStep l s).RfShortDelay = s.RfShortDelay := by
  unfold rfDetStep; split_ifs <;> rfl

@[simp] theorem rfDetStep_led (l : Bool) (s : Sys) :
    (rfDetStep l s).led = s.led := by
  unfold rfDetStep; split_ifs <;> rfl

@[simp] theorem rfDetStep_pwm1out (l : Bool) (s : Sys) :
    (rfDetStep l s).pwm1out = s.pwm1out := by
  unfold rfDetStep; split_ifs <;> rfl

@[simp] theorem delayStep_Pwm1_State (s : Sys) : (delayStep s).Pwm1_State = s.Pwm1_State := by
  simp only [delayStep]; split_ifs <;> rfl

@[simp] theorem delayStep_Pwm1_dc (s : Sys) : (delayStep s).Pwm1_dc = s.Pwm1_dc := by
  simp only [delayStep]; split_ifs <;> rfl

@[simp] theorem delayStep_Pwm1_reach (s : Sys) : (delayStep s).Pwm1_reach = s.Pwm1_reach := by
  simp only [delayStep]; split_ifs <;> rfl

@[simp] theorem delayStep_Pwm1_cn (s : Sys) : (delayStep s).Pwm1_cn = s.Pwm1_cn := by
  simp only [delayStep]; split_ifs <;> rfl

@[simp] theorem delayStep_Command (s : Sys) : (delayStep s).Command = s.Command := by
  simp only [delayStep]; split_ifs <;> rfl

@[simp] theorem delayStep_RfDetConfirmSt (s : Sys) :
    (delayStep s).RfDetConfirmSt = s.RfDetConfirmSt := by
  simp only [delayStep]; split_ifs <;> rfl

@[simp] theorem delayStep_RfDetState (s : Sys) : (delayStep s).RfDetState = s.RfDetState := by
  simp only [delayStep]; split_ifs <;> rfl

@[simp] theorem delayStep_RfDetCounter (s : Sys) :
    (delayStep s).RfDetCounter = s.RfDetCounter := by
  simp only [delayStep]; split_ifs <;> rfl

@[simp] theorem delayStep_RfDetected (s : Sys) : (delayStep s).RfDetected = s.RfDetected := by
  simp only [delayStep]; split_ifs <;> rfl

@[simp] theorem delayStep_led (s : Sys) : (delayStep s).led = s.led := by
  simp only [delayStep]; split_ifs <;> rfl

@[simp] theorem delayStep_p1ie6 (s : Sys) : (delayStep s).p1ie6 = s.p1ie6 := by
  simp only [delayStep]; split_ifs <;> rfl

@[simp] theorem delayStep_pwm1out (s : Sys) : (delayStep s).pwm1out = s.pwm1out := by
  simp only [delayStep]; split_ifs <;> rfl

@[simp] theorem delayStep_Pwm1_delay (s : Sys) :
    (delayStep s).Pwm1_delay = s.Pwm1_delay - 1 := by
  simp only [delayStep]; split_ifs <;> simp <;> omega

@[simp] theorem pwmStep_Pwm1_State (s : Sys) : (pwmStep s).Pwm1_State = s.Pwm1_State := by
  unfold pwmStep; split_ifs <;> rfl

@[simp] theorem pwmStep_Pwm1_dc (s : Sys) : (pwmStep s).Pwm1_dc = s.Pwm1_dc := by
  unfold pwmStep; split_ifs <;> rfl

@[simp] theorem pwmStep_Pwm1_reach (s : Sys) : (pwmStep s).Pwm1_reach = s.Pwm1_reach := by
  unfold pwmStep; split_ifs <;> rfl

@[simp] theorem pwmStep_Pwm1_delay (s : Sys) : (pwmStep s).Pwm1_delay = s.Pwm1_delay := by
  unfold pwmStep; split_ifs <;> rfl

@[simp] theorem pwmStep_Command (s : Sys) : (pwmStep s).Command = s.Command := by
  unfold pwmStep; split_ifs <;> rfl

@[simp] theorem pwmStep_RfDetConfirmSt (s : Sys) :
    (pwmStep s).RfDetConfirmSt = s.RfDetConfirmSt := by
  unfold pwmStep; split_ifs <;> rfl

@[simp] theorem pwmStep_RfDetState (s : Sys) : (pwmStep s).RfDetState = s.RfDetState := by
  unfold pwmStep; split_ifs <;> rfl

@[simp] theorem pwmStep_RfDetCounter (s : Sys) : (pwmStep s).RfDetCounter = s.RfDetCounter := by
  unfold pwmStep; split_ifs <;> rfl

@[simp] theorem pwmStep_RfDetected (s : Sys) : (pwmStep s).RfDetected = s.RfDetected := by
  unfold pwmStep; split_ifs <;> rfl

@[simp] theorem pwmStep_RfLongDelay (s : Sys) : (pwmStep s).RfLongDelay = s.RfLongDelay := by
  unfold pwmStep; split_ifs <;> rfl

@[simp] theorem pwmStep_RfShortDelay (s : Sys) : (pwmStep s).RfShortDelay = s.RfShortDelay := by
  unfold pwmStep; split_ifs <;> rfl

@[simp] theorem pwmStep_RfPrescaler (s : Sys) : (pwmStep s).RfPrescaler = s.RfPrescaler := by
  unfold pwmStep; split_ifs <;> rfl

@[simp] theorem pwmStep_led (s : Sys) : (pwmStep s).led = s.led := by
  unfold pwmStep; split_ifs <;> rfl

@[simp] theorem pwmStep_p1ie6 (s : Sys) : (pwmStep s).p1ie6 = s.p1ie6 := by
  unfold pwmStep; split_ifs <;> rfl

@[simp] theorem confirmStep_Pwm1_State (s : Sys) :
    (confirmStep s).Pwm1_State = s.Pwm1_State := by
  unfold confirmStep; split_ifs <;> rfl

@[simp] theorem confirmStep_Pwm1_dc (s : Sys) : (confirmStep s).Pwm1_dc = s.Pwm1_dc := by
  unfold confirmStep; split_ifs <;> rfl

@[simp] theorem confirmStep_Pwm1_reach (s : Sys) :
    (confirmStep s).Pwm1_reach = s.Pwm1_reach := by
  unfold confirmStep; split_ifs <;> rfl

@[simp] theorem confirmStep_Pwm1_cn (s : Sys) : (confirmStep s).Pwm1_cn = s.Pwm1_cn := by
  unfold confirmStep; split_ifs <;> rfl

@[simp] theorem confirmStep_Pwm1_delay (s : Sys) :
    (confirmStep s).Pwm1_delay = s.Pwm1_delay := by
  unfold confirmStep; split_ifs <;> rfl

@[simp] theorem confirmStep_RfDetected (s : Sys) :
    (confirmStep s).RfDetected = s.RfDetected := by
  unfold confirmStep; split_ifs <;> rfl

@[simp] theorem confirmStep_RfDetState (s : Sys) :
    (confirmStep s).RfDetState = s.RfDetState := by
  unfold confirmStep; split_ifs <;> rfl

@[simp] theorem confirmStep_RfDetCounter (s : Sys) :
    (confirmStep s).RfDetCounter = s.RfDetCounter := by
  unfold confirmStep; split_ifs <;> rfl

@[simp] theorem confirmStep_pwm1out (s : Sys) : (confirmStep s).pwm1out = s.pwm1out := by
  unfold confirmStep; split_ifs <;> rfl

@[simp] theorem confirmStep_p1ie6 (s : Sys) : (confirmStep s).p1ie6 = s.p1ie6 := by
  unfold confirmStep; split_ifs <;> rfl

@[simp] theorem positGoal_Pwm1_State (s : Sys) : (positGoal s).Pwm1_State = s.Pwm1_State := by
  unfold positGoal; split_ifs <;> rfl

@[simp] theorem positGoal_Pwm1_dc (s : Sys) : (positGoal s).Pwm1_dc = s.Pwm1_dc := by
  unfold positGoal; split_ifs <;> rfl

@[simp] theorem positGoal_Pwm1_cn (s : Sys) : (positGoal s).Pwm1_cn = s.Pwm1_cn := by
  unfold positGoal; split_ifs <;> rfl

@[simp] theorem positGoal_Pwm1_delay (s : Sys) : (positGoal s).Pwm1_delay = s.Pwm1_delay := by
  unfold positGoal; split_ifs <;> rfl

@[simp] theorem positGoal_Command (s : Sys) : (positGoal s).Command = s.Command := by
  unfold positGoal; split_ifs <;> rfl

@[simp] theorem positGoal_RfDetected (s : Sys) : (positGoal s).RfDetected = s.RfDetected := by
  unfold positGoal; split_ifs <;> rfl

@[simp] theorem positGoal_RfDetConfirmSt (s : Sys) :
    (positGoal s).RfDetConfirmSt = s.RfDetConfirmSt := by
  unfold positGoal; split_ifs <;> rfl

@[simp] theorem positGoal_RfDetState (s : Sys) : (positGoal s).RfDetState = s.RfDetState := by
  unfold positGoal; split_ifs <;> rfl

@[simp] theorem positGoal_RfDetCounter (s : Sys) :
    (positGoal s).RfDetCounter = s.RfDetCounter := by
  unfold positGoal; split_ifs <;> rfl

@[simp] theorem positGoal_RfLongDelay (s : Sys) :
    (positGoal s).RfLongDelay = s.RfLongDelay := by
  unfold positGoal; split_ifs <;> rfl

@[simp] theorem positGoal_RfShortDelay (s : Sys) :
    (positGoal s).RfShortDelay = s.RfShortDelay := by
  unfold positGoal; split_ifs <;> rfl

@[simp] theorem positGoal_RfPrescaler (s : Sys) :
    (positGoal s).RfPrescaler = s.RfPrescaler := by
  unfold positGoal; split_ifs <;> rfl

@[simp] theorem positGoal_pwm1out (s : Sys) : (positGoal s).pwm1out = s.pwm1out := by
  unfold positGoal; split_ifs <;> rfl

@[simp] theorem positGoal_led (s : Sys) : (positGoal s).led = s.led := by
  unfold positGoal; split_ifs <;> rfl

@[simp] theorem positGoal_p1ie6 (s : Sys) : (positGoal s).p1ie6 = s.p1ie6 := by
  unfold positGoal; split_ifs <;> rfl

@[simp] theorem positDir_Pwm1_dc (s : Sys) : (positDir s).Pwm1_dc = s.Pwm1_dc := by
  unfold positDir; split_ifs <;> rfl

@[simp] theorem positDir_Pwm1_reach (s : Sys) : (positDir s).Pwm1_reach = s.Pwm1_reach := by
  unfold positDir; split_ifs <;> rfl

@[simp] theorem positDir_Pwm1_cn (s : Sys) : (positDir s).Pwm1_cn = s.Pwm1_cn := by
  unfold positDir; split_ifs <;> rfl

@[simp] theorem positDir_Pwm1_delay (s : Sys) : (positDir s).Pwm1_delay = s.Pwm1_delay := by
  unfold positDir; split_ifs <;> rfl

@[simp] theorem positDir_Command (s : Sys) : (positDir s).Command = s.Command := by
  unfold positDir; split_ifs <;> rfl

@[simp] theorem positDir_RfDetected (s : Sys) : (positDir s).RfDetected = s.RfDetected := by
  unfold positDir; split_ifs <;> rfl

@[simp] theorem positDir_RfDetConfirmSt (s : Sys) :
    (positDir s).RfDetConfirmSt = s.RfDetConfirmSt := by
  unfold positDir; split_ifs <;> rfl

@[simp] theorem positDir_RfDetState (s : Sys) : (positDir s).RfDetState = s.RfDetState := by
  unfold positDir; split_ifs <;> rfl

@[simp] theorem positDir_RfDetCounter (s : Sys) :
    (positDir s).RfDetCounter = s.RfDetCounter := by
  unfold positDir; split_ifs <;> rfl

@[simp] theorem positDir_RfLongDelay (s : Sys) : (positDir s).RfLongDelay = s.RfLongDelay := by
  unfold positDir; split_ifs <;> rfl

@[simp] theorem positDir_RfShortDelay (s : Sys) :
    (positDir s).RfShortDelay = s.RfShortDelay := by
  unfold positDir; split_ifs <;> rfl

@[simp] theorem positDir_RfPrescaler (s : Sys) : (positDir s).RfPrescaler = s.RfPrescaler := by
  unfold positDir; split_ifs <;> rfl

@[simp] theorem positDir_pwm1out (s : Sys) : (positDir s).pwm1out = s.pwm1out := by
  unfold positDir; split_ifs <;> rfl

@[simp] theorem positDir_led (s : Sys) : (positDir s).led = s.led := by
  unfold positDir; split_ifs <;> rfl

@[simp] theorem positDir_p1ie6 (s : Sys) : (positDir s).p1ie6 = s.p1ie6 := by
  unfold positDir; split_ifs <;> rfl

@[simp] theorem positDefault_Pwm1_dc (s : Sys) : (positDefault s).Pwm1_dc = s.Pwm1_dc := by
  unfold positDefault; simp

@[simp] theorem positDefault_Pwm1_cn (s : Sys) : (positDefault s).Pwm1_cn = s.Pwm1_cn := by
  unfold positDefault; simp

@[simp] theorem positDefault_Pwm1_delay (s : Sys) :
    (positDefault s).Pwm1_delay = s.Pwm1_delay := by
  unfold positDefault; simp

@[simp] theorem positDefault_Command (s : Sys) : (positDefault s).Command = false := by
  unfold positDefault; simp

@[simp] theorem positDefault_RfDetected (s : Sys) :
    (positDefault s).RfDetected = s.RfDetected := by
  unfold positDefault; simp

@[simp] theorem positDefault_RfDetConfirmSt (s : Sys) :
    (positDefault s).RfDetConfirmSt = s.RfDetConfirmSt := by
  unfold positDefault; simp

@[simp] theorem positDefault_RfDetState (s : Sys) :
    (positDefault s).RfDetState = s.RfDetState := by
  unfold positDefault; simp

@[simp] theorem positDefault_RfDetCounter (s : Sys) :
    (positDefault s).RfDetCounter = s.RfDetCounter := by
  unfold positDefault; simp

@[simp] theorem positDefault_RfLongDelay (s : Sys) :
    (positDefault s).RfLongDelay = s.RfLongDelay := by
  unfold positDefault; simp

@[simp] theorem positDefault_RfShortDelay (s : Sys) :
    (positDefault s).RfShortDelay = s.RfShortDelay := by
  unfold positDefault; simp

@[simp] theorem positDefault_RfPrescaler (s : Sys) :
    (positDefault s).RfPrescaler = s.RfPrescaler := by
  unfold positDefault; simp

@[simp] theorem positDefault_pwm1out (s : Sys) : (positDefault s).pwm1out = s.pwm1out := by
  unfold positDefault; simp

@[simp] theorem positDefault_led (s : Sys) : (positDefault s).led = s.led := by
  unfold positDefault; simp

@[simp] theorem positDefault_p1ie6 (s : Sys) : (positDefault s).p1ie6 = s.p1ie6 := by
  unfold positDefault; simp

@[simp] theorem positStep_RfDetected (b : Bool) (s : Sys) :
    (positStep b s).RfDetected = s.RfDetected := by
  unfold positStep; split_ifs <;> simp

@[simp] theorem positStep_RfDetConfirmSt (b : Bool) (s : Sys) :
    (positStep b s).RfDetConfirmSt = s.RfDetConfirmSt := by
  unfold positStep; split_ifs <;> simp

@[simp] theorem positStep_RfDetState (b : Bool) (s : Sys) :
    (positStep b s).RfDetState = s.RfDetState := by
  unfold positStep; split_ifs <;> simp

@[simp] theorem positStep_RfDetCounter (b : Bool) (s : Sys) :
    (positStep b s).RfDetCounter = s.RfDetCounter := by
  unfold positStep; split_ifs <;> simp

@[simp] theorem positStep_RfLongDelay (b : Bool) (s : Sys) :
    (positStep b s).RfLongDelay = s.RfLongDelay := by
  unfold positStep; split_ifs <;> simp

@[simp] theorem positStep_RfShortDelay (b : Bool) (s : Sys) :
    (positStep b s).RfShortDelay = s.RfShortDelay := by
  unfold positStep; split_ifs <;> simp

@[simp] theorem positStep_RfPrescaler (b : Bool) (s : Sys) :
    (positStep b s).RfPrescaler = s.RfPrescaler := by
  unfold positStep; split_ifs <;> simp

@[simp] theorem positStep_Pwm1_cn (b : Bool) (s : Sys) :
    (positStep b s).Pwm1_cn = s.Pwm1_cn := by
  unfold positStep; split_ifs <;> simp

@[simp] theorem positStep_pwm1out (b : Bool) (s : Sys) :
    (positStep b s).pwm1out = s.pwm1out := by
  unfold positStep; split_ifs <;> simp

@[simp] theorem positStep_led (b : Bool) (s : Sys) :
    (positStep b s).led = s.led := by
  unfold positStep; split_ifs <;> simp

@[simp] theorem positStep_p1ie6 (b : Bool) (s : Sys) :
    (positStep b s).p1ie6 = s.p1ie6 := by
  unfold positStep; split_ifs <;> simp

end RfMotor

namespace RfMotor

@[simp] theorem port1Edge_Pwm1_State (l : Bool) (s : Sys) :
    (port1Edge l s).Pwm1_State = s.Pwm1_State := by
  unfold port1Edge; split_ifs <;> rfl

@[simp] theorem port1Edge_Pwm1_dc (l : Bool) (s : Sys) :
    (port1Edge l s).Pwm1_dc = s.Pwm1_dc := by
  unfold port1Edge; split_ifs <;> rfl

@[simp] theorem port1Edge_Pwm1_reach (l : Bool) (s : Sys) :
    (port1Edge l s).Pwm1_reach = s.Pwm1_reach := by
  unfold port1Edge; split_ifs <;> rfl

@[simp] theorem port1Edge_Pwm1_cn (l : Bool) (s : Sys) :
    (port1Edge l s).Pwm1_cn = s.Pwm1_cn := by
  unfold port1Edge; split_ifs <;> rfl

@[simp] theorem port1Edge_Pwm1_delay (l : Bool) (s : Sys) :
    (port1Edge l s).Pwm1_delay = s.Pwm1_delay := by
  unfold port1Edge; split_ifs <;> rfl

@[simp] theorem port1Edge_Command (l : Bool) (s : Sys) :
    (port1Edge l s).Command = s.Command := by
  unfold port1Edge; split_ifs <;> rfl

@[simp] theorem port1Edge_RfDetected (l : Bool) (s : Sys) :
    (port1Edge l s).RfDetected = s.RfDetected := by
  unfold port1Edge; split_ifs <;> rfl

@[simp] theorem port1Edge_RfDetConfirmSt (l : Bool) (s : Sys) :
    (port1Edge l s).RfDetConfirmSt = s.RfDetConfirmSt := by
  unfold port1Edge; split_ifs <;> rfl

@[simp] theorem port1Edge_pwm1out (l : Bool) (s : Sys) :
    (port1Edge l s).pwm1out = s.pwm1out := by
  unfold port1Edge; split_ifs <;> rfl

@[simp] theorem mainStep_Pwm1_cn (b : Bool) (s : Sys) :
    (mainStep b s).Pwm1_cn = s.Pwm1_cn := by
  unfold mainStep; simp

@[simp] theorem mainStep_RfDetected (b : Bool) (s : Sys) :
    (mainStep b s).RfDetected = s.RfDetected := by
  unfold mainStep; simp

@[simp] theorem mainStep_RfDetState (b : Bool) (s : Sys) :
    (mainStep b s).RfDetState = s.RfDetState := by
  unfold mainStep; simp

@[simp] theorem mainStep_RfDetCounter (b : Bool) (s : Sys) :
    (mainStep b s).RfDetCounter = s.RfDetCounter := by
  unfold mainStep; simp

@[simp] theorem mainStep_pwm1out (b : Bool) (s : Sys) :
    (mainStep b s).pwm1out = s.pwm1out := by
  unfold mainStep; simp

@[simp] theorem mainStep_p1ie6 (b : Bool) (s : Sys) :
    (mainStep b s).p1ie6 = s.p1ie6 := by
  unfold mainStep; simp

@[simp] theorem timerTick_Pwm1_State (l : Bool) (s : Sys) :
    (timerTick l s).Pwm1_State = s.Pwm1_State := by
  unfold timerTick; split_ifs <;> simp

@[simp] theorem timerTick_Pwm1_dc (l : Bool) (s : Sys) :
    (timerTick l s).Pwm1_dc = s.Pwm1_dc := by
  unfold timerTick; split_ifs <;> simp

@[simp] theorem timerTick_Pwm1_reach (l : Bool) (s : Sys) :
    (timerTick l s).Pwm1_reach = s.Pwm1_reach := by
  unfold timerTick; split_ifs <;> simp

@[simp] theorem timerTick_Command (l : Bool) (s : Sys) :
    (timerTick l s).Command = s.Command := by
  unfold timerTick; split_ifs <;> simp

@[simp] theorem timerTick_RfDetConfirmSt (l : Bool) (s : Sys) :
    (timerTick l s).RfDetConfirmSt = s.RfDetConfirmSt := by
  unfold timerTick; split_ifs <;> simp

@[simp] theorem timerTick_led (l : Bool) (s : Sys) :
    (timerTick l s).led = s.led := by
  unfold timerTick; split_ifs <;> simp

@[simp] theorem timerTick_Pwm1_delay (l : Bool) (s : Sys) :
    (timerTick l s).Pwm1_delay = s.Pwm1_delay - 1 := by
  unfold timerTick; split_ifs <;> simp

theorem timerTick_Pwm1_cn (l : Bool) (s : Sys) :
    (timerTick l s).Pwm1_cn = if s.Pwm1_cn < PWM1_MAXSTEP then inc16 s.Pwm1_cn else 0 := by
  unfold timerTick pwmStep; split_ifs <;> simp_all

theorem timerTick_pwm1out (l : Bool) (s : Sys) :
    (timerTick l s).pwm1out =
      if s.Pwm1_cn < PWM1_MAXSTEP then decide (inc16 s.Pwm1_cn ≤ s.Pwm1_dc) else false := by
  unfold timerTick pwmStep; split_ifs <;> simp_all

theorem timerTick_notPosit_RfDetState (l : Bool) (s : Sys) (h : s.Pwm1_State ≠ POSIT) :
    (timerTick l s).RfDetState = s.RfDetState := by
  unfold timerTick; split_ifs <;> simp_all

theorem timerTick_notPosit_RfDetected (l : Bool) (s : Sys) (h : s.Pwm1_State ≠ POSIT) :
    (timerTick l s).RfDetected = s.RfDetected := by
  unfold timerTick; split_ifs <;> simp_all

theorem timerTick_notPosit_RfDetCounter (l : Bool) (s : Sys) (h : s.Pwm1_State ≠ POSIT) :
    (timerTick l s).RfDetCounter = s.RfDetCounter := by
  unfold timerTick; split_ifs <;> simp_all

theorem run_nil (s : Sys) : run [] s = s := rfl

theorem run_cons (e : Ev) (evs : List Ev) (s : Sys) :
    run (e :: evs) s = run evs (step e s) := by
  unfold run; rw [List.foldl_cons]

theorem run_inv (P : Sys → Prop) (h : ∀ e s, P s → P (step e s)) :
    ∀ (evs : List Ev) (s : Sys), P s → P (run evs s) := by
  intro evs
  induction evs with
  | nil => intro s hs; rw [run_nil]; exact hs
  | cons e t ih => intro s hs; rw [run_cons]; exact ih _ (h e s hs)

theorem tick_iter_cn : ∀ (n : Nat) (s : Sys), s.Pwm1_cn + n ≤ PWM1_MAXSTEP →
    ((timerTick false)^[n] s).Pwm1_cn = s.Pwm1_cn + n := by
  intro n
  induction n with
  | zero => intro s h; simp
  | succ n ih =>
      intro s h
      have hlt : s.Pwm1_cn < PWM1_MAXSTEP := by omega
      have h1 : (timerTick false s).Pwm1_cn = s.Pwm1_cn + 1 := by
        rw [timerTick_Pwm1_cn, if_pos hlt, inc16_eq]
        unfold PWM1_MAXSTEP at hlt; omega
      rw [Function.iterate_succ_apply, ih (timerTick false s) (by omega), h1]
      omega

end RfMotor

namespace RfMotor

/-- C2: on every Timer_A call, the PWM output level written on that tick is
HIGH exactly when the PWM cycle counter (as updated by that tick) is at most
Pwm1_dc; and when the counter has reached PWM1_MAXSTEP, the tick resets it to
0 and forces the output LOW regardless of Pwm1_dc. -/
theorem C2_pwm_output_level (l : Bool) (s : Sys) :
    (s.Pwm1_cn < PWM1_MAXSTEP →
      ((timerTick l s).pwm1out = true ↔ (timerTick l s).Pwm1_cn ≤ (timerTick l s).Pwm1_dc)) ∧
    (¬ s.Pwm1_cn < PWM1_MAXSTEP →
      (timerTick l s).Pwm1_cn = 0 ∧ (timerTick l s).pwm1out = false) := by
  constructor
  · intro h
    rw [timerTick_pwm1out, timerTick_Pwm1_cn, timerTick_Pwm1_dc, if_pos h, if_pos h]
    simp
  · intro h
    rw [timerTick_pwm1out, timerTick_Pwm1_cn, if_neg h, if_neg h]
    exact ⟨rfl, rfl⟩

/-- Witness for C2 at the initial state. -/
theorem C2_pwm_output_level_witness :
    initSys.Pwm1_cn < PWM1_MAXSTEP ∧
    ((timerTick false initSys).pwm1out = true ↔
      (timerTick false initSys).Pwm1_cn ≤ (timerTick false initSys).Pwm1_dc) :=
  ⟨by decide, (C2_pwm_output_level false initSys).1 (by decide)⟩

/-- C3 is false on the code: starting from Init, after PWM1_MAXSTEP ticks the
PWM cycle counter equals PWM1_MAXSTEP itself, so it does not stay inside the
half open interval [0, PWM1_MAXSTEP). -/
theorem C3_counterexample :
    ¬ ((timerTick false)^[PWM1_MAXSTEP] initSys).Pwm1_cn < PWM1_MAXSTEP := by
  have h := tick_iter_cn PWM1_MAXSTEP initSys (by decide)
  rw [h]
  have : initSys.Pwm1_cn = 0 := rfl
  omega

/-- C3 amended: from Init the counter stays in the closed interval
[0, PWM1_MAXSTEP] over every event sequence; a tick taken with the counter at
PWM1_MAXSTEP resets it to 0; and from any state with the counter at 0 the
counter retraces 0,1,...,PWM1_MAXSTEP and returns to 0 after exactly
PWM1_MAXSTEP + 1 ticks, so the PWM period is PWM1_MAXSTEP + 1 ticks. -/
theorem C3_amended_counter_range_and_period :
    (∀ evs : List Ev, (run evs initSys).Pwm1_cn ≤ PWM1_MAXSTEP) ∧
    (∀ (l : Bool) (s : Sys), s.Pwm1_cn = PWM1_MAXSTEP → (timerTick l s).Pwm1_cn = 0) ∧
    (∀ s : Sys, s.Pwm1_cn = 0 →
      (∀ k, k ≤ PWM1_MAXSTEP → ((timerTick false)^[k] s).Pwm1_cn = k) ∧
      ((timerTick false)^[PWM1_MAXSTEP + 1] s).Pwm1_cn = 0) := by
  refine ⟨?_, ?_, ?_⟩
  · intro evs
    refine run_inv (fun t => t.Pwm1_cn ≤ PWM1_MAXSTEP) ?_ evs initSys (by decide)
    intro e s hs
    cases e with
    | emain b => simpa [step] using hs
    | eedge l => simpa [step] using hs
    | etick l =>
        show (timerTick l s).Pwm1_cn ≤ PWM1_MAXSTEP
        rw [timerTick_Pwm1_cn]
        split_ifs with hlt
        · rw [inc16_eq (by unfold PWM1_MAXSTEP at hlt; omega)]
          omega
        · omega
  · intro l s hcn
    rw [timerTick_Pwm1_cn, if_neg (by omega)]
  · intro s hcn
    have hall : ∀ k, k ≤ PWM1_MAXSTEP → ((timerTick false)^[k] s).Pwm1_cn = k := by
      intro k hk
      have := tick_iter_cn k s (by omega)
      omega
    refine ⟨hall, ?_⟩
    rw [Function.iterate_succ_apply', timerTick_Pwm1_cn,
        if_neg (by rw [hall PWM1_MAXSTEP (le_refl _)]; omega)]

/-- Witness for the amended C3 at concrete inputs. -/
theorem C3_amended_witness :
    (run [] initSys).Pwm1_cn ≤ PWM1_MAXSTEP ∧
    (timerTick false { initSys with Pwm1_cn := PWM1_MAXSTEP }).Pwm1_cn = 0 ∧
    ((timerTick false)^[5] initSys).Pwm1_cn = 5 :=
  ⟨C3_amended_counter_range_and_period.1 [],
   C3_amended_counter_range_and_period.2.1 false _ rfl,
   (C3_amended_counter_range_and_period.2.2 initSys rfl).1 5 (by decide)⟩

/-- C6 is false on the code: from DETHIGH with counter 5 a LOW sample takes
the failure transition into DETEND, yet the run length counter keeps its
value 5 instead of being reset to 0. -/
theorem C6_counterexample :
    (rfDetStep false { initSys with RfDetState := DETHIGH, RfDetCounter := 5 }).RfDetState
        = DETEND ∧
    ({ initSys with RfDetState := DETHIGH, RfDetCounter := 5 } : Sys).RfDetState = DETHIGH ∧
    (rfDetStep false { initSys with RfDetState := DETHIGH, RfDetCounter := 5 }).RfDetCounter
        = 5 := by
  decide

/-- C6 amended: the run length counter is reset to 0 on the DETHIGH to DETLOW
transitions, on the successful DETLOW to DETEND transitions (the ones that
write RfDetected = TRUE), and when the Port1 edge interrupt arms DETHIGH; it
is NOT reset on the failure transitions from DETHIGH or DETLOW into DETEND
(the ones that write RfDetected = FALSE) nor on the DETEND to IDLE
transition, where it keeps its value.  RfDetected is changed only on
transitions out of DETHIGH or DETLOW into DETEND; the main loop and the edge
interrupt never change it. -/
theorem C6_amended_counter_resets :
    (∀ (l : Bool) (s : Sys), s.RfDetState = DETHIGH → (rfDetStep l s).RfDetState = DETLOW →
        (rfDetStep l s).RfDetCounter = 0) ∧
    (∀ (l : Bool) (s : Sys), s.RfDetState = DETLOW → (rfDetStep l s).RfDetState = DETEND →
        (rfDetStep l s).RfDetected = true → (rfDetStep l s).RfDetCounter = 0) ∧
    (∀ (l : Bool) (s : Sys), (port1Edge l s).RfDetState ≠ s.RfDetState →
        (port1Edge l s).RfDetCounter = 0) ∧
    (∀ (l : Bool) (s : Sys), s.RfDetState = DETHIGH → (rfDetStep l s).RfDetState = DETEND →
        (rfDetStep l s).RfDetCounter = s.RfDetCounter) ∧
    (∀ (l : Bool) (s : Sys), s.RfDetState = DETLOW → (rfDetStep l s).RfDetState = DETEND →
        (rfDetStep l s).RfDetected = false → (rfDetStep l s).RfDetCounter = s.RfDetCounter) ∧
    (∀ (l : Bool) (s : Sys), s.RfDetState = DETEND →
        (rfDetStep l s).RfDetCounter = s.RfDetCounter) ∧
    (∀ (l : Bool) (s : Sys), (rfDetStep l s).RfDetected ≠ s.RfDetected →
        (s.RfDetState = DETHIGH ∨ s.RfDetState = DETLOW) ∧
        (rfDetStep l s).RfDetState = DETEND) ∧
    (∀ (b : Bool) (s : Sys), (mainStep b s).RfDetected = s.RfDetected) ∧
    (∀ (l : Bool) (s : Sys), (port1Edge l s).RfDetected = s.RfDetected) := by
  refine ⟨?_, ?_, ?_, ?_, ?_, ?_, ?_, ?_, ?_⟩
  · intro l s h1 h2
    unfold rfDetStep at *
    split_ifs at * <;> simp_all [IDLE, DETHIGH, DETLOW, DETEND]
  · intro l s h1 h2 h3
    unfold rfDetStep at *
    split_ifs at * <;> simp_all [IDLE, DETHIGH, DETLOW, DETEND]
  · intro l s h1
    unfold port1Edge at *
    split_ifs at * <;> simp_all
  · intro l s h1 h2
    unfold rfDetStep at *
    split_ifs at * <;> simp_all [IDLE, DETHIGH, DETLOW, DETEND]
  · intro l s h1 h2 h3
    unfold rfDetStep at *
    split_ifs at * <;> simp_all [IDLE, DETHIGH, DETLOW, DETEND]
  · intro l s h1
    unfold rfDetStep at *
    split_ifs at * <;> simp_all [IDLE, DETHIGH, DETLOW, DETEND]
  · intro l s h1
    unfold rfDetStep at *
    split_ifs at * <;> simp_all [IDLE, DETHIGH, DETLOW, DETEND]
  · intro b s
    simp
  · intro l s
    simp

/-- Witness for the amended C6 at concrete inputs. -/
theorem C6_amended_witness :
    ({ initSys with RfDetState := DETHIGH, RfDetCounter := COUNTHIGH } : Sys).RfDetState
        = DETHIGH ∧
    (rfDetStep true { initSys with RfDetState := DETHIGH, RfDetCounter := COUNTHIGH }
        ).RfDetState = DETLOW ∧
    (rfDetStep true { initSys with RfDetState := DETHIGH, RfDetCounter := COUNTHIGH }
        ).RfDetCounter = 0 :=
  ⟨by decide, by decide,
   C6_amended_counter_resets.1 true _ (by decide) (by decide)⟩

/-- C7: when the positioning machine is triggered in POSIT, the target
Pwm1_reach follows exactly the tie break cascade of the source over the
endpoints POSIT_START and POSIT_END, and the next state is MOVINGUP when the
target exceeds Pwm1_dc, else MOVINGDOWN. -/
theorem C7_posit_target_rule (s : Sys) (hst : s.Pwm1_State = POSIT) :
    (s.Pwm1_dc = POSIT_START → (mainStep true s).Pwm1_reach = POSIT_END) ∧
    (s.Pwm1_dc < POSIT_START → (mainStep true s).Pwm1_reach = POSIT_START) ∧
    (s.Pwm1_dc > POSIT_START →
      (s.Pwm1_dc = POSIT_END → (mainStep true s).Pwm1_reach = POSIT_START) ∧
      (s.Pwm1_dc > POSIT_END → (mainStep true s).Pwm1_reach = POSIT_END) ∧
      (s.Pwm1_dc < POSIT_END → (mainStep true s).Pwm1_reach = POSIT_END)) ∧
    (mainStep true s).Pwm1_State =
      (if (mainStep true s).Pwm1_reach > s.Pwm1_dc then MOVINGUP else MOVINGDOWN) := by
  have hmain : mainStep true s = positDefault (confirmStep s) := by
    unfold mainStep positStep
    simp [hst, POSIT, MOVINGUP, MOVINGDOWN, WAITINGUP, WAITINGDOWN]
  have hreach : (mainStep true s).Pwm1_reach =
      (positGoal { confirmStep s with Command := false }).Pwm1_reach := by
    rw [hmain]; unfold positDefault; rw [positDir_Pwm1_reach]
  have hstate : (mainStep true s).Pwm1_State =
      (if (mainStep true s).Pwm1_reach > s.Pwm1_dc then MOVINGUP else MOVINGDOWN) := by
    rw [hreach]
    conv_lhs => rw [hmain]
    unfold positDefault positDir
    split_ifs <;> simp_all <;> omega
  refine ⟨?_, ?_, ?_, hstate⟩
  · intro h
    rw [hreach]
    unfold positGoal
    split_ifs <;> simp_all [POSIT_START, POSIT_END]
  · intro h
    rw [hreach]
    unfold positGoal
    split_ifs <;> simp_all [POSIT_START, POSIT_END] <;> omega
  · intro h
    refine ⟨?_, ?_, ?_⟩ <;> intro h2 <;> rw [hreach] <;> unfold positGoal <;>
      split_ifs <;> simp_all [POSIT_START, POSIT_END] <;> omega

/-- Witness for C7 at the initial state. -/
theorem C7_posit_target_rule_witness :
    initSys.Pwm1_State = POSIT ∧
    (initSys.Pwm1_dc = POSIT_START → (mainStep true initSys).Pwm1_reach = POSIT_END) :=
  ⟨rfl, (C7_posit_target_rule initSys rfl).1⟩

end RfMotor

namespace RfMotor

theorem confirmStep_inert (s : Sys) (hconf : s.RfDetConfirmSt = IDLE)
    (hdet : s.RfDetected = false) : confirmStep s = s := by
  unfold confirmStep
  rw [if_pos hconf, if_neg]
  simp [hdet]

theorem positStep_moving_down_progress (b : Bool) (s : Sys)
    (hst : s.Pwm1_State = MOVINGDOWN) (hne : s.Pwm1_dc ≠ s.Pwm1_reach) :
    positStep b s =
      { s with Pwm1_State := WAITINGDOWN, Pwm1_delay := SPEED, Pwm1_dc := dec16 s.Pwm1_dc } := by
  unfold positStep
  rw [hst]
  simp [POSIT, MOVINGUP, MOVINGDOWN, WAITINGUP, WAITINGDOWN, hne]

theorem positStep_moving_down_done (b : Bool) (s : Sys)
    (hst : s.Pwm1_State = MOVINGDOWN) (heq : s.Pwm1_dc = s.Pwm1_reach) :
    positStep b s = { s with Command := false, Pwm1_State := POSIT } := by
  unfold positStep
  rw [hst]
  simp [POSIT, MOVINGUP, MOVINGDOWN, WAITINGUP, WAITINGDOWN, heq]

theorem positStep_moving_up_progress (b : Bool) (s : Sys)
    (hst : s.Pwm1_State = MOVINGUP) (hne : s.Pwm1_dc ≠ s.Pwm1_reach) :
    positStep b s =
      { s with Pwm1_State := WAITINGUP, Pwm1_delay := SPEED, Pwm1_dc := inc16 s.Pwm1_dc } := by
  unfold positStep
  rw [hst]
  simp [POSIT, MOVINGUP, MOVINGDOWN, WAITINGUP, WAITINGDOWN, hne]

theorem positStep_moving_up_done (b : Bool) (s : Sys)
    (hst : s.Pwm1_State = MOVINGUP) (heq : s.Pwm1_dc = s.Pwm1_reach) :
    positStep b s = { s with Command := false, Pwm1_State := POSIT } := by
  unfold positStep
  rw [hst]
  simp [POSIT, MOVINGUP, MOVINGDOWN, WAITINGUP, WAITINGDOWN, heq]

theorem positStep_waiting_down_go (b : Bool) (s : Sys)
    (hst : s.Pwm1_State = WAITINGDOWN) (hd : s.Pwm1_delay = 0) :
    positStep b s = { s with Pwm1_State := MOVINGDOWN } := by
  unfold positStep
  rw [hst]
  simp [POSIT, MOVINGUP, MOVINGDOWN, WAITINGUP, WAITINGDOWN, hd]

theorem positStep_waiting_up_go (b : Bool) (s : Sys)
    (hst : s.Pwm1_State = WAITINGUP) (hd : s.Pwm1_delay = 0) :
    positStep b s = { s with Pwm1_State := MOVINGUP } := by
  unfold positStep
  rw [hst]
  simp [POSIT, MOVINGUP, MOVINGDOWN, WAITINGUP, WAITINGDOWN, hd]

theorem positStep_waiting_down_stay (b : Bool) (s : Sys)
    (hst : s.Pwm1_State = WAITINGDOWN) (hd : s.Pwm1_delay ≠ 0) :
    positStep b s = s := by
  unfold positStep
  rw [hst]
  simp [POSIT, MOVINGUP, MOVINGDOWN, WAITINGUP, WAITINGDOWN, hd]

theorem positStep_waiting_up_stay (b : Bool) (s : Sys)
    (hst : s.Pwm1_State = WAITINGUP) (hd : s.Pwm1_delay ≠ 0) :
    positStep b s = s := by
  unfold positStep
  rw [hst]
  simp [POSIT, MOVINGUP, MOVINGDOWN, WAITINGUP, WAITINGDOWN, hd]

end RfMotor

namespace RfMotor

theorem trigger_from_start (s : Sys) (hst : s.Pwm1_State = POSIT)
    (hconf : s.RfDetConfirmSt = IDLE) (hdet : s.RfDetected = false)
    (hdc : s.Pwm1_dc = POSIT_START) :
    mainStep true s =
      { s with Command := false, Pwm1_reach := POSIT_END, Pwm1_State := MOVINGDOWN } := by
  unfold mainStep
  rw [confirmStep_inert s hconf hdet]
  unfold positStep
  rw [hst]
  norm_num [POSIT, MOVINGUP, MOVINGDOWN, WAITINGUP, WAITINGDOWN]
  unfold positDefault positGoal positDir
  simp [hdc, POSIT_START, POSIT_END, MOVINGUP, MOVINGDOWN]

theorem trigger_from_below (s : Sys) (hst : s.Pwm1_State = POSIT)
    (hconf : s.RfDetConfirmSt = IDLE) (hdet : s.RfDetected = false)
    (hdc : s.Pwm1_dc < POSIT_START) :
    mainStep true s =
      { s with Command := false, Pwm1_reach := POSIT_START, Pwm1_State := MOVINGUP } := by
  have hlt : s.Pwm1_dc < 161 := by unfold POSIT_START at hdc; exact hdc
  have hne : ¬ s.Pwm1_dc = 161 := by omega
  unfold mainStep
  rw [confirmStep_inert s hconf hdet]
  unfold positStep
  rw [hst]
  norm_num [POSIT, MOVINGUP, MOVINGDOWN, WAITINGUP, WAITINGDOWN]
  unfold positDefault positGoal positDir
  simp [hne, hlt, POSIT_START, POSIT_END, MOVINGUP, MOVINGDOWN]

theorem tick_iter_moving (l : Bool) : ∀ (n : Nat) (s : Sys), s.Pwm1_State ≠ POSIT →
    ((timerTick l)^[n] s).Pwm1_State = s.Pwm1_State ∧
    ((timerTick l)^[n] s).Pwm1_dc = s.Pwm1_dc ∧
    ((timerTick l)^[n] s).Pwm1_reach = s.Pwm1_reach ∧
    ((timerTick l)^[n] s).Command = s.Command ∧
    ((timerTick l)^[n] s).RfDetConfirmSt = s.RfDetConfirmSt ∧
    ((timerTick l)^[n] s).RfDetected = s.RfDetected ∧
    ((timerTick l)^[n] s).Pwm1_delay = s.Pwm1_delay - n := by
  intro n
  induction n with
  | zero => intro s h; simp
  | succ n ih =>
      intro s h
      have h1 : (timerTick l s).Pwm1_State = s.Pwm1_State := by simp
      obtain ⟨a1, a2, a3, a4, a5, a6, a7⟩ := ih (timerTick l s) (by rw [h1]; exact h)
      rw [Function.iterate_succ_apply]
      refine ⟨by rw [a1, h1], by rw [a2]; simp, by rw [a3]; simp, by rw [a4]; simp,
              by rw [a5]; simp, ?_, ?_⟩
      · rw [a6, timerTick_notPosit_RfDetected l s h]
      · rw [a7, timerTick_Pwm1_delay]
        omega

end RfMotor

namespace RfMotor

theorem runSteps_zero (s : Sys) : runSteps 0 s = mainStep false s := rfl

theorem runSteps_succ (n : Nat) (s : Sys) :
    runSteps (n + 1) s = runSteps n (cycleStep s) := by
  unfold runSteps
  rw [Function.iterate_succ_apply]

theorem mainStep_moving_down_progress (b : Bool) (s : Sys)
    (hst : s.Pwm1_State = MOVINGDOWN) (hconf : s.RfDetConfirmSt = IDLE)
    (hdet : s.RfDetected = false) (hne : s.Pwm1_dc ≠ s.Pwm1_reach) :
    mainStep b s =
      { s with Pwm1_State := WAITINGDOWN, Pwm1_delay := SPEED, Pwm1_dc := dec16 s.Pwm1_dc } := by
  unfold mainStep
  rw [confirmStep_inert s hconf hdet, positStep_moving_down_progress b s hst hne]

theorem mainStep_moving_up_progress (b : Bool) (s : Sys)
    (hst : s.Pwm1_State = MOVINGUP) (hconf : s.RfDetConfirmSt = IDLE)
    (hdet : s.RfDetected = false) (hne : s.Pwm1_dc ≠ s.Pwm1_reach) :
    mainStep b s =
      { s with Pwm1_State := WAITINGUP, Pwm1_delay := SPEED, Pwm1_dc := inc16 s.Pwm1_dc } := by
  unfold mainStep
  rw [confirmStep_inert s hconf hdet, positStep_moving_up_progress b s hst hne]

theorem mainStep_moving_down_done (b : Bool) (s : Sys)
    (hst : s.Pwm1_State = MOVINGDOWN) (hconf : s.RfDetConfirmSt = IDLE)
    (hdet : s.RfDetected = false) (heq : s.Pwm1_dc = s.Pwm1_reach) :
    mainStep b s = { s with Command := false, Pwm1_State := POSIT } := by
  unfold mainStep
  rw [confirmStep_inert s hconf hdet, positStep_moving_down_done b s hst heq]

theorem mainStep_moving_up_done (b : Bool) (s : Sys)
    (hst : s.Pwm1_State = MOVINGUP) (hconf : s.RfDetConfirmSt = IDLE)
    (hdet : s.RfDetected = false) (heq : s.Pwm1_dc = s.Pwm1_reach) :
    mainStep b s = { s with Command := false, Pwm1_State := POSIT } := by
  unfold mainStep
  rw [confirmStep_inert s hconf hdet, positStep_moving_up_done b s hst heq]

theorem mainStep_waiting_down_go (b : Bool) (s : Sys)
    (hst : s.Pwm1_State = WAITINGDOWN) (hconf : s.RfDetConfirmSt = IDLE)
    (hdet : s.RfDetected = false) (hd : s.Pwm1_delay = 0) :
    mainStep b s = { s with Pwm1_State := MOVINGDOWN } := by
  unfold mainStep
  rw [confirmStep_inert s hconf hdet, positStep_waiting_down_go b s hst hd]

theorem mainStep_waiting_up_go (b : Bool) (s : Sys)
    (hst : s.Pwm1_State = WAITINGUP) (hconf : s.RfDetConfirmSt = IDLE)
    (hdet : s.RfDetected = false) (hd : s.Pwm1_delay = 0) :
    mainStep b s = { s with Pwm1_State := MOVINGUP } := by
  unfold mainStep
  rw [confirmStep_inert s hconf hdet, positStep_waiting_up_go b s hst hd]

theorem mainStep_waiting_down_fields (s : Sys)
    (hst : s.Pwm1_State = WAITINGDOWN) (hconf : s.RfDetConfirmSt = IDLE)
    (hdet : s.RfDetected = false) (hd : s.Pwm1_delay = 0) :
    (mainStep false s).Pwm1_State = MOVINGDOWN ∧ (mainStep false s).Pwm1_dc = s.Pwm1_dc ∧
    (mainStep false s).Pwm1_reach = s.Pwm1_reach ∧
    (mainStep false s).RfDetConfirmSt = IDLE ∧ (mainStep false s).RfDetected = false := by
  rw [mainStep_waiting_down_go false s hst hconf hdet hd]
  exact ⟨rfl, rfl, rfl, hconf, hdet⟩

theorem mainStep_waiting_up_fields (s : Sys)
    (hst : s.Pwm1_State = WAITINGUP) (hconf : s.RfDetConfirmSt = IDLE)
    (hdet : s.RfDetected = false) (hd : s.Pwm1_delay = 0) :
    (mainStep false s).Pwm1_State = MOVINGUP ∧ (mainStep false s).Pwm1_dc = s.Pwm1_dc ∧
    (mainStep false s).Pwm1_reach = s.Pwm1_reach ∧
    (mainStep false s).RfDetConfirmSt = IDLE ∧ (mainStep false s).RfDetected = false := by
  rw [mainStep_waiting_up_go false s hst hconf hdet hd]
  exact ⟨rfl, rfl, rfl, hconf, hdet⟩

theorem cycleStep_down (s : Sys) (h1 : s.Pwm1_State = MOVINGDOWN)
    (h2 : s.RfDetConfirmSt = IDLE) (h3 : s.RfDetected = false)
    (hne : s.Pwm1_dc ≠ s.Pwm1_reach) (hdc : 0 < s.Pwm1_dc) (hub : s.Pwm1_dc ≤ 65535) :
    (cycleStep s).Pwm1_State = MOVINGDOWN ∧ (cycleStep s).Pwm1_dc = s.Pwm1_dc - 1 ∧
    (cycleStep s).Pwm1_reach = s.Pwm1_reach ∧ (cycleStep s).RfDetConfirmSt = IDLE ∧
    (cycleStep s).RfDetected = false := by
  have hs1 := mainStep_moving_down_progress false s h1 h2 h3 hne
  obtain ⟨b1, b2, b3, b4, b5, b6, b7⟩ :=
    tick_iter_moving false SPEED (mainStep false s)
      (by rw [hs1]; simp [WAITINGDOWN, POSIT])
  have hdec : dec16 s.Pwm1_dc = s.Pwm1_dc - 1 := dec16_eq hdc hub
  obtain ⟨e1, e2, e3, e4, e5⟩ :=
    mainStep_waiting_down_fields ((timerTick false)^[SPEED] (mainStep false s))
      (by rw [b1, hs1]) (by rw [b5, hs1]; exact h2) (by rw [b6, hs1]; exact h3)
      (by rw [b7, hs1]; simp)
  unfold cycleStep
  refine ⟨e1, ?_, ?_, e4, e5⟩
  · rw [e2, b2, hs1]
    exact hdec
  · rw [e3, b3, hs1]

theorem cycleStep_up (s : Sys) (h1 : s.Pwm1_State = MOVINGUP)
    (h2 : s.RfDetConfirmSt = IDLE) (h3 : s.RfDetected = false)
    (hne : s.Pwm1_dc ≠ s.Pwm1_reach) (hub : s.Pwm1_dc < 65535) :
    (cycleStep s).Pwm1_State = MOVINGUP ∧ (cycleStep s).Pwm1_dc = s.Pwm1_dc + 1 ∧
    (cycleStep s).Pwm1_reach = s.Pwm1_reach ∧ (cycleStep s).RfDetConfirmSt = IDLE ∧
    (cycleStep s).RfDetected = false := by
  have hs1 := mainStep_moving_up_progress false s h1 h2 h3 hne
  obtain ⟨b1, b2, b3, b4, b5, b6, b7⟩ :=
    tick_iter_moving false SPEED (mainStep false s)
      (by rw [hs1]; simp [WAITINGUP, POSIT])
  have hinc : inc16 s.Pwm1_dc = s.Pwm1_dc + 1 := inc16_eq hub
  obtain ⟨e1, e2, e3, e4, e5⟩ :=
    mainStep_waiting_up_fields ((timerTick false)^[SPEED] (mainStep false s))
      (by rw [b1, hs1]) (by rw [b5, hs1]; exact h2) (by rw [b6, hs1]; exact h3)
      (by rw [b7, hs1]; simp)
  unfold cycleStep
  refine ⟨e1, ?_, ?_, e4, e5⟩
  · rw [e2, b2, hs1]
    exact hinc
  · rw [e3, b3, hs1]

theorem runSteps_down : ∀ (n : Nat) (s : Sys),
    s.Pwm1_State = MOVINGDOWN → s.RfDetConfirmSt = IDLE → s.RfDetected = false →
    s.Pwm1_dc = s.Pwm1_reach + n → s.Pwm1_dc ≤ POSIT_START → 0 < s.Pwm1_reach →
    (runSteps n s).Pwm1_State = POSIT ∧ (runSteps n s).Pwm1_dc = s.Pwm1_reach ∧
    (runSteps n s).Pwm1_reach = s.Pwm1_reach ∧ (runSteps n s).Command = false ∧
    (runSteps n s).RfDetConfirmSt = IDLE ∧ (runSteps n s).RfDetected = false := by
  intro n
  induction n with
  | zero =>
      intro s h1 h2 h3 h4 h5 h6
      rw [runSteps_zero, mainStep_moving_down_done false s h1 h2 h3 (by omega)]
      exact ⟨rfl, by simpa using h4, rfl, rfl, h2, h3⟩
  | succ n ih =>
      intro s h1 h2 h3 h4 h5 h6
      obtain ⟨c1, c2, c3, c4, c5⟩ := cycleStep_down s h1 h2 h3 (by omega) (by omega)
        (by unfold POSIT_START at h5; omega)
      rw [runSteps_succ]
      obtain ⟨d1, d2, d3, d4, d5, d6⟩ := ih (cycleStep s) c1 c4 c5
        (by rw [c2, c3]; omega) (by rw [c2]; omega) (by rw [c3]; omega)
      exact ⟨d1, by rw [d2, c3], by rw [d3, c3], d4, d5, d6⟩

theorem runSteps_up : ∀ (n : Nat) (s : Sys),
    s.Pwm1_State = MOVINGUP → s.RfDetConfirmSt = IDLE → s.RfDetected = false →
    s.Pwm1_dc + n = s.Pwm1_reach → s.Pwm1_reach ≤ POSIT_START →
    (runSteps n s).Pwm1_State = POSIT ∧ (runSteps n s).Pwm1_dc = s.Pwm1_reach ∧
    (runSteps n s).Pwm1_reach = s.Pwm1_reach ∧ (runSteps n s).Command = false ∧
    (runSteps n s).RfDetConfirmSt = IDLE ∧ (runSteps n s).RfDetected = false := by
  intro n
  induction n with
  | zero =>
      intro s h1 h2 h3 h4 h5
      rw [runSteps_zero, mainStep_moving_up_done false s h1 h2 h3 (by omega)]
      exact ⟨rfl, by simpa using h4, rfl, rfl, h2, h3⟩
  | succ n ih =>
      intro s h1 h2 h3 h4 h5
      obtain ⟨c1, c2, c3, c4, c5⟩ := cycleStep_up s h1 h2 h3 (by omega)
        (by unfold POSIT_START at h5; omega)
      rw [runSteps_succ]
      obtain ⟨d1, d2, d3, d4, d5, d6⟩ := ih (cycleStep s) c1 c4 c5
        (by rw [c2, c3]; omega) (by rw [c3]; omega)
      exact ⟨d1, by rw [d2, c3], by rw [d3, c3], d4, d5, d6⟩

end RfMotor

namespace RfMotor

theorem triggerRun_from_start (s : Sys) (hst : s.Pwm1_State = POSIT)
    (hconf : s.RfDetConfirmSt = IDLE) (hdet : s.RfDetected = false)
    (hdc : s.Pwm1_dc = POSIT_START) :
    (triggerRun s).Pwm1_State = POSIT ∧ (triggerRun s).Pwm1_dc = POSIT_END ∧
    (triggerRun s).Command = false ∧ (triggerRun s).RfDetConfirmSt = IDLE ∧
    (triggerRun s).RfDetected = false := by
  have h161 : s.Pwm1_dc = 161 := hdc
  have htr := trigger_from_start s hst hconf hdet hdc
  have htr_run : triggerRun s =
      runSteps (s.Pwm1_dc - POSIT_END)
        { s with Command := false, Pwm1_reach := POSIT_END, Pwm1_State := MOVINGDOWN } := by
    unfold triggerRun
    rw [htr]
    simp [MOVINGUP, MOVINGDOWN]
  obtain ⟨d1, d2, d3, d4, d5, d6⟩ := runSteps_down (s.Pwm1_dc - POSIT_END)
    { s with Command := false, Pwm1_reach := POSIT_END, Pwm1_State := MOVINGDOWN }
    rfl hconf hdet
    (by show s.Pwm1_dc = 78 + (s.Pwm1_dc - 78); omega)
    (by show s.Pwm1_dc ≤ 161; omega)
    (by show (0 : Nat) < 78; omega)
  rw [htr_run]
  exact ⟨d1, d2, d4, d5, d6⟩

theorem triggerRun_from_below (s : Sys) (hst : s.Pwm1_State = POSIT)
    (hconf : s.RfDetConfirmSt = IDLE) (hdet : s.RfDetected = false)
    (hdc : s.Pwm1_dc < POSIT_START) :
    (triggerRun s).Pwm1_State = POSIT ∧ (triggerRun s).Pwm1_dc = POSIT_START ∧
    (triggerRun s).Command = false ∧ (triggerRun s).RfDetConfirmSt = IDLE ∧
    (triggerRun s).RfDetected = false := by
  have h161 : s.Pwm1_dc < 161 := hdc
  have htr := trigger_from_below s hst hconf hdet hdc
  have htr_run : triggerRun s =
      runSteps (POSIT_START - s.Pwm1_dc)
        { s with Command := false, Pwm1_reach := POSIT_START, Pwm1_State := MOVINGUP } := by
    unfold triggerRun
    rw [htr]
    simp [MOVINGUP, MOVINGDOWN]
  obtain ⟨d1, d2, d3, d4, d5, d6⟩ := runSteps_up (POSIT_START - s.Pwm1_dc)
    { s with Command := false, Pwm1_reach := POSIT_START, Pwm1_State := MOVINGUP }
    rfl hconf hdet
    (by show s.Pwm1_dc + (161 - s.Pwm1_dc) = 161; omega)
    (by show (161 : Nat) ≤ 161; omega)
  rw [htr_run]
  exact ⟨d1, d2, d4, d5, d6⟩

/-- C1: from POSIT at duty D inside the endpoint band with a quiet RF input,
one qualifying trigger followed by the canonical schedule of exactly
abs(target minus D) step cycles returns the machine to POSIT with Pwm1_dc at
the target chosen by the tie break rule; every single step of the motion
moves Pwm1_dc by exactly one unit into the matching WAITING state armed with
Pwm1_delay = SPEED; in particular from duty 161 one trigger moves down to 78
through MOVINGDOWN and WAITINGDOWN and a second trigger moves back up to 161
through MOVINGUP. -/
theorem C1_trigger_motion (s : Sys) (hst : s.Pwm1_State = POSIT)
    (hconf : s.RfDetConfirmSt = IDLE) (hdet : s.RfDetected = false)
    (hlo : POSIT_END ≤ s.Pwm1_dc) (hhi : s.Pwm1_dc ≤ POSIT_START) :
    ((triggerRun s).Pwm1_State = POSIT ∧
     (triggerRun s).Pwm1_dc = (if s.Pwm1_dc = POSIT_START then POSIT_END else POSIT_START) ∧
     (triggerRun s).Command = false) ∧
    (s.Pwm1_dc = POSIT_START →
      (mainStep true s).Pwm1_State = MOVINGDOWN ∧ (mainStep true s).Pwm1_reach = POSIT_END ∧
      (mainStep true s).Pwm1_dc - (mainStep true s).Pwm1_reach = s.Pwm1_dc - POSIT_END) ∧
    (s.Pwm1_dc < POSIT_START →
      (mainStep true s).Pwm1_State = MOVINGUP ∧ (mainStep true s).Pwm1_reach = POSIT_START ∧
      (mainStep true s).Pwm1_reach - (mainStep true s).Pwm1_dc = POSIT_START - s.Pwm1_dc) ∧
    (∀ u : Sys, u.Pwm1_State = MOVINGDOWN → u.RfDetConfirmSt = IDLE → u.RfDetected = false →
      u.Pwm1_dc ≠ u.Pwm1_reach → 0 < u.Pwm1_dc → u.Pwm1_dc ≤ 65535 →
      (mainStep false u).Pwm1_State = WAITINGDOWN ∧ (mainStep false u).Pwm1_delay = SPEED ∧
      (mainStep false u).Pwm1_dc = u.Pwm1_dc - 1) ∧
    (∀ u : Sys, u.Pwm1_State = MOVINGUP → u.RfDetConfirmSt = IDLE → u.RfDetected = false →
      u.Pwm1_dc ≠ u.Pwm1_reach → u.Pwm1_dc < 65535 →
      (mainStep false u).Pwm1_State = WAITINGUP ∧ (mainStep false u).Pwm1_delay = SPEED ∧
      (mainStep false u).Pwm1_dc = u.Pwm1_dc + 1) ∧
    (s.Pwm1_dc = POSIT_START →
      (triggerRun (triggerRun s)).Pwm1_State = POSIT ∧
      (triggerRun (triggerRun s)).Pwm1_dc = POSIT_START ∧
      (mainStep true (triggerRun s)).Pwm1_State = MOVINGUP) := by
  have h161 : s.Pwm1_dc ≤ 161 := hhi
  refine ⟨?_, ?_, ?_, ?_, ?_, ?_⟩
  · rcases eq_or_lt_of_le hhi with heq | hlt
    · obtain ⟨d1, d2, d3, d4, d5⟩ := triggerRun_from_start s hst hconf hdet heq
      rw [if_pos heq]
      exact ⟨d1, d2, d3⟩
    · obtain ⟨d1, d2, d3, d4, d5⟩ := triggerRun_from_below s hst hconf hdet hlt
      rw [if_neg (by omega)]
      exact ⟨d1, d2, d3⟩
  · intro hdc
    rw [trigger_from_start s hst hconf hdet hdc]
    exact ⟨rfl, rfl, rfl⟩
  · intro hdc
    rw [trigger_from_below s hst hconf hdet hdc]
    exact ⟨rfl, rfl, rfl⟩
  · intro u u1 u2 u3 u4 u5 u6
    rw [mainStep_moving_down_progress false u u1 u2 u3 u4]
    exact ⟨rfl, rfl, dec16_eq u5 u6⟩
  · intro u u1 u2 u3 u4 u5
    rw [mainStep_moving_up_progress false u u1 u2 u3 u4]
    exact ⟨rfl, rfl, inc16_eq u5⟩
  · intro hdc
    obtain ⟨d1, d2, d3, d4, d5⟩ := triggerRun_from_start s hst hconf hdet hdc
    have hlt2 : (triggerRun s).Pwm1_dc < POSIT_START := by
      rw [d2]
      show (78 : Nat) < 161
      omega
    obtain ⟨e1, e2, e3, e4, e5⟩ := triggerRun_from_below (triggerRun s) d1 d4 d5 hlt2
    have he := trigger_from_below (triggerRun s) d1 d4 d5 hlt2
    refine ⟨e1, e2, ?_⟩
    rw [he]

/-- Witness for C1 at the initial state of rf_motor.c. -/
theorem C1_trigger_motion_witness :
    (initSys.Pwm1_State = POSIT ∧ initSys.RfDetConfirmSt = IDLE ∧
     initSys.RfDetected = false ∧ POSIT_END ≤ initSys.Pwm1_dc ∧
     initSys.Pwm1_dc ≤ POSIT_START) ∧
    ((triggerRun initSys).Pwm1_State = POSIT ∧
     (triggerRun initSys).Pwm1_dc =
       (if initSys.Pwm1_dc = POSIT_START then POSIT_END else POSIT_START) ∧
     (triggerRun initSys).Command = false) :=
  ⟨⟨rfl, rfl, rfl, by decide, by decide⟩,
   (C1_trigger_motion initSys rfl rfl rfl (by decide) (by decide)).1⟩

end RfMotor

namespace RfMotor

theorem positDefault_at_start (t : Sys) (hdc : t.Pwm1_dc = POSIT_START) :
    positDefault t =
      { t with Command := false, Pwm1_reach := POSIT_END, Pwm1_State := MOVINGDOWN } := by
  unfold positDefault positGoal positDir
  simp [hdc, POSIT_START, POSIT_END, MOVINGDOWN]

theorem positDefault_below_start (t : Sys) (hdc : t.Pwm1_dc < POSIT_START) :
    positDefault t =
      { t with Command := false, Pwm1_reach := POSIT_START, Pwm1_State := MOVINGUP } := by
  have hlt : t.Pwm1_dc < 161 := hdc
  have hne : ¬ t.Pwm1_dc = 161 := by omega
  unfold positDefault positGoal positDir
  simp [hne, hlt, POSIT_START, POSIT_END, MOVINGUP]

theorem positStep_not_moving (b : Bool) (t : Sys)
    (h1 : ¬ t.Pwm1_State = MOVINGUP) (h2 : ¬ t.Pwm1_State = MOVINGDOWN)
    (h3 : ¬ t.Pwm1_State = WAITINGUP) (h4 : ¬ t.Pwm1_State = WAITINGDOWN) :
    positStep b t =
      (if b = true ∨ t.Command = true then positDefault t else t) := by
  unfold positStep
  split_ifs <;> simp_all

theorem positStep_pres (b : Bool) (t : Sys)
    (i1 : POSIT_END ≤ t.Pwm1_dc) (i2 : t.Pwm1_dc ≤ POSIT_START)
    (i3 : t.Pwm1_reach = POSIT_START ∨ t.Pwm1_reach = POSIT_END)
    (i4 : (t.Pwm1_State = MOVINGUP ∨ t.Pwm1_State = WAITINGUP) → t.Pwm1_dc ≤ t.Pwm1_reach)
    (i5 : (t.Pwm1_State = MOVINGDOWN ∨ t.Pwm1_State = WAITINGDOWN) →
        t.Pwm1_reach ≤ t.Pwm1_dc) :
    (POSIT_END ≤ (positStep b t).Pwm1_dc ∧ (positStep b t).Pwm1_dc ≤ POSIT_START) ∧
    ((positStep b t).Pwm1_reach = POSIT_START ∨ (positStep b t).Pwm1_reach = POSIT_END) ∧
    (((positStep b t).Pwm1_State = MOVINGUP ∨ (positStep b t).Pwm1_State = WAITINGUP) →
        (positStep b t).Pwm1_dc ≤ (positStep b t).Pwm1_reach) ∧
    (((positStep b t).Pwm1_State = MOVINGDOWN ∨ (positStep b t).Pwm1_State = WAITINGDOWN) →
        (positStep b t).Pwm1_reach ≤ (positStep b t).Pwm1_dc) := by
  have n1 : 78 ≤ t.Pwm1_dc := i1
  have n2 : t.Pwm1_dc ≤ 161 := i2
  have n3 : t.Pwm1_reach = 161 ∨ t.Pwm1_reach = 78 := i3
  by_cases h1 : t.Pwm1_State = MOVINGUP
  · by_cases h2 : t.Pwm1_dc = t.Pwm1_reach
    · rw [positStep_moving_up_done b t h1 h2]
      refine ⟨⟨i1, i2⟩, i3, ?_, ?_⟩ <;> intro hc <;> rcases hc with hc | hc <;>
        simp [POSIT, MOVINGUP, MOVINGDOWN, WAITINGUP, WAITINGDOWN] at hc
    · have hle : t.Pwm1_dc ≤ t.Pwm1_reach := i4 (Or.inl h1)
      have hinc : inc16 t.Pwm1_dc = t.Pwm1_dc + 1 := inc16_eq (by omega)
      rw [positStep_moving_up_progress b t h1 h2]
      refine ⟨⟨?_, ?_⟩, i3, ?_, ?_⟩
      · show 78 ≤ inc16 t.Pwm1_dc
        omega
      · show inc16 t.Pwm1_dc ≤ 161
        omega
      · intro hc
        show inc16 t.Pwm1_dc ≤ t.Pwm1_reach
        omega
      · intro hc
        rcases hc with hc | hc <;>
          simp [MOVINGUP, MOVINGDOWN, WAITINGUP, WAITINGDOWN] at hc
  · by_cases h2 : t.Pwm1_State = MOVINGDOWN
    · by_cases h3 : t.Pwm1_dc = t.Pwm1_reach
      · rw [positStep_moving_down_done b t h2 h3]
        refine ⟨⟨i1, i2⟩, i3, ?_, ?_⟩ <;> intro hc <;> rcases hc with hc | hc <;>
          simp [POSIT, MOVINGUP, MOVINGDOWN, WAITINGUP, WAITINGDOWN] at hc
      · have hle : t.Pwm1_reach ≤ t.Pwm1_dc := i5 (Or.inl h2)
        have hdec : dec16 t.Pwm1_dc = t.Pwm1_dc - 1 := dec16_eq (by omega) (by omega)
        rw [positStep_moving_down_progress b t h2 h3]
        refine ⟨⟨?_, ?_⟩, i3, ?_, ?_⟩
        · show 78 ≤ dec16 t.Pwm1_dc
          omega
        · show dec16 t.Pwm1_dc ≤ 161
          omega
        · intro hc
          rcases hc with hc | hc <;>
            simp [MOVINGUP, MOVINGDOWN, WAITINGUP, WAITINGDOWN] at hc
        · intro hc
          show t.Pwm1_reach ≤ dec16 t.Pwm1_dc
          omega
    · by_cases h3 : t.Pwm1_State = WAITINGUP
      · by_cases h4 : t.Pwm1_delay = 0
        · rw [positStep_waiting_up_go b t h3 h4]
          have hle : t.Pwm1_dc ≤ t.Pwm1_reach := i4 (Or.inr h3)
          refine ⟨⟨i1, i2⟩, i3, ?_, ?_⟩
          · intro hc
            exact hle
          · intro hc
            rcases hc with hc | hc <;>
              simp [MOVINGUP, MOVINGDOWN, WAITINGUP, WAITINGDOWN] at hc
        · rw [positStep_waiting_up_stay b t h3 h4]
          exact ⟨⟨i1, i2⟩, i3, i4, i5⟩
      · by_cases h4 : t.Pwm1_State = WAITINGDOWN
        · by_cases h5 : t.Pwm1_delay = 0
          · rw [positStep_waiting_down_go b t h4 h5]
            have hle : t.Pwm1_reach ≤ t.Pwm1_dc := i5 (Or.inr h4)
            refine ⟨⟨i1, i2⟩, i3, ?_, ?_⟩
            · intro hc
              rcases hc with hc | hc <;>
                simp [MOVINGUP, MOVINGDOWN, WAITINGUP, WAITINGDOWN] at hc
            · intro hc
              exact hle
          · rw [positStep_waiting_down_stay b t h4 h5]
            exact ⟨⟨i1, i2⟩, i3, i4, i5⟩
        · rw [positStep_not_moving b t h1 h2 h3 h4]
          split_ifs with hg
          · rcases eq_or_lt_of_le i2 with heq | hlt
            · rw [positDefault_at_start t heq]
              refine ⟨⟨i1, i2⟩, Or.inr rfl, ?_, ?_⟩
              · intro hc
                rcases hc with hc | hc <;>
                  simp [MOVINGUP, MOVINGDOWN, WAITINGUP, WAITINGDOWN] at hc
              · intro hc
                show (POSIT_END : Nat) ≤ t.Pwm1_dc
                exact i1
            · rw [positDefault_below_start t hlt]
              refine ⟨⟨i1, i2⟩, Or.inl rfl, ?_, ?_⟩
              · intro hc
                show t.Pwm1_dc ≤ POSIT_START
                exact i2
              · intro hc
                rcases hc with hc | hc <;>
                  simp [MOVINGUP, MOVINGDOWN, WAITINGUP, WAITINGDOWN] at hc
          · exact ⟨⟨i1, i2⟩, i3, i4, i5⟩

theorem rf_inv (evs : List Ev) :
    (POSIT_END ≤ (run evs initSys).Pwm1_dc ∧ (run evs initSys).Pwm1_dc ≤ POSIT_START) ∧
    ((run evs initSys).Pwm1_reach = POSIT_START ∨ (run evs initSys).Pwm1_reach = POSIT_END) ∧
    (((run evs initSys).Pwm1_State = MOVINGUP ∨ (run evs initSys).Pwm1_State = WAITINGUP) →
        (run evs initSys).Pwm1_dc ≤ (run evs initSys).Pwm1_reach) ∧
    (((run evs initSys).Pwm1_State = MOVINGDOWN ∨
        (run evs initSys).Pwm1_State = WAITINGDOWN) →
        (run evs initSys).Pwm1_reach ≤ (run evs initSys).Pwm1_dc) := by
  refine run_inv (fun t =>
    (POSIT_END ≤ t.Pwm1_dc ∧ t.Pwm1_dc ≤ POSIT_START) ∧
    (t.Pwm1_reach = POSIT_START ∨ t.Pwm1_reach = POSIT_END) ∧
    ((t.Pwm1_State = MOVINGUP ∨ t.Pwm1_State = WAITINGUP) → t.Pwm1_dc ≤ t.Pwm1_reach) ∧
    ((t.Pwm1_State = MOVINGDOWN ∨ t.Pwm1_State = WAITINGDOWN) → t.Pwm1_reach ≤ t.Pwm1_dc))
    ?_ evs initSys ?_
  · intro e t ht
    obtain ⟨⟨i1, i2⟩, i3, i4, i5⟩ := ht
    cases e with
    | etick l =>
        show ((_ ∧ _) ∧ _)
        simpa [step] using ⟨⟨i1, i2⟩, i3, i4, i5⟩
    | eedge l =>
        show ((_ ∧ _) ∧ _)
        simpa [step] using ⟨⟨i1, i2⟩, i3, i4, i5⟩
    | emain b =>
        show ((_ ∧ _) ∧ _)
        show (POSIT_END ≤ (mainStep b t).Pwm1_dc ∧ _) ∧ _
        unfold mainStep
        have hc1 : POSIT_END ≤ (confirmStep t).Pwm1_dc := by simpa using i1
        have hc2 : (confirmStep t).Pwm1_dc ≤ POSIT_START := by simpa using i2
        have hc3 : (confirmStep t).Pwm1_reach = POSIT_START ∨
            (confirmStep t).Pwm1_reach = POSIT_END := by simpa using i3
        have hc4 : ((confirmStep t).Pwm1_State = MOVINGUP ∨
            (confirmStep t).Pwm1_State = WAITINGUP) →
            (confirmStep t).Pwm1_dc ≤ (confirmStep t).Pwm1_reach := by simpa using i4
        have hc5 : ((confirmStep t).Pwm1_State = MOVINGDOWN ∨
            (confirmStep t).Pwm1_State = WAITINGDOWN) →
            (confirmStep t).Pwm1_reach ≤ (confirmStep t).Pwm1_dc := by simpa using i5
        exact positStep_pres b (confirmStep t) hc1 hc2 hc3 hc4 hc5
  · refine ⟨⟨by decide, by decide⟩, Or.inl rfl, ?_, ?_⟩ <;> intro hc <;>
      rcases hc with hc | hc <;> simp [initSys] at hc <;>
      simp [POSIT, MOVINGUP, MOVINGDOWN, WAITINGUP, WAITINGDOWN] at hc

end RfMotor

namespace RfMotor

/-- C10: starting from Init, in every reachable state of rf_motor.c the duty
cycle stays within the band [POSIT_END, POSIT_START] = [78, 161], and
Pwm1_reach only ever holds POSIT_START or POSIT_END. -/
theorem C10_dc_band (evs : List Ev) :
    POSIT_END ≤ (run evs initSys).Pwm1_dc ∧ (run evs initSys).Pwm1_dc ≤ POSIT_START ∧
    ((run evs initSys).Pwm1_reach = POSIT_START ∨
     (run evs initSys).Pwm1_reach = POSIT_END) := by
  obtain ⟨⟨i1, i2⟩, i3, i4, i5⟩ := rf_inv evs
  exact ⟨i1, i2, i3⟩

/-- C9: a trigger arriving while the positioning machine is in any moving or
waiting state has no effect beyond the motion in progress: the button value
does not change the iteration at all, Pwm1_reach is never recomputed, a
pending Command changes nothing of the positioning fields, and the motion
ends at the same resting duty cycle with Command consumed, exactly as in the
untriggered execution. -/
theorem C9_trigger_absorbed (s : Sys)
    (h : s.Pwm1_State = MOVINGUP ∨ s.Pwm1_State = MOVINGDOWN ∨
         s.Pwm1_State = WAITINGUP ∨ s.Pwm1_State = WAITINGDOWN) :
    (∀ b : Bool, mainStep b s = mainStep false s) ∧
    (∀ b : Bool, (mainStep b s).Pwm1_reach = s.Pwm1_reach) ∧
    (∀ b : Bool,
      (mainStep b { s with Command := true }).Pwm1_State = (mainStep b s).Pwm1_State ∧
      (mainStep b { s with Command := true }).Pwm1_dc = (mainStep b s).Pwm1_dc ∧
      (mainStep b { s with Command := true }).Pwm1_reach = s.Pwm1_reach ∧
      (mainStep b { s with Command := true }).Pwm1_delay = (mainStep b s).Pwm1_delay) ∧
    (s.Pwm1_State = MOVINGDOWN → s.RfDetConfirmSt = IDLE → s.RfDetected = false →
      s.Pwm1_reach ≤ s.Pwm1_dc → s.Pwm1_dc ≤ POSIT_START → 0 < s.Pwm1_reach →
      ∀ c : Bool,
        (runSteps (s.Pwm1_dc - s.Pwm1_reach) { s with Command := c }).Pwm1_State = POSIT ∧
        (runSteps (s.Pwm1_dc - s.Pwm1_reach) { s with Command := c }).Pwm1_dc =
          s.Pwm1_reach ∧
        (runSteps (s.Pwm1_dc - s.Pwm1_reach) { s with Command := c }).Command = false) ∧
    (s.Pwm1_State = MOVINGUP → s.RfDetConfirmSt = IDLE → s.RfDetected = false →
      s.Pwm1_dc ≤ s.Pwm1_reach → s.Pwm1_reach ≤ POSIT_START →
      ∀ c : Bool,
        (runSteps (s.Pwm1_reach - s.Pwm1_dc) { s with Command := c }).Pwm1_State = POSIT ∧
        (runSteps (s.Pwm1_reach - s.Pwm1_dc) { s with Command := c }).Pwm1_dc =
          s.Pwm1_reach ∧
        (runSteps (s.Pwm1_reach - s.Pwm1_dc) { s with Command := c }).Command = false) := by
  refine ⟨?_, ?_, ?_, ?_, ?_⟩
  · intro b
    rcases h with h | h | h | h <;>
      (unfold mainStep positStep;
       simp [h, POSIT, MOVINGUP, MOVINGDOWN, WAITINGUP, WAITINGDOWN])
  · intro b
    rcases h with h | h | h | h <;>
      (unfold mainStep positStep;
       simp [h, POSIT, MOVINGUP, MOVINGDOWN, WAITINGUP, WAITINGDOWN];
       split_ifs <;> simp [h, MOVINGUP, MOVINGDOWN, WAITINGUP, WAITINGDOWN])
  · intro b
    rcases h with h | h | h | h <;>
      (unfold mainStep positStep;
       simp [h, POSIT, MOVINGUP, MOVINGDOWN, WAITINGUP, WAITINGDOWN];
       split_ifs <;> simp [h, MOVINGUP, MOVINGDOWN, WAITINGUP, WAITINGDOWN])
  · intro h1 h2 h3 h4 h5 h6 c
    obtain ⟨d1, d2, d3, d4, d5, d6⟩ :=
      runSteps_down (s.Pwm1_dc - s.Pwm1_reach) { s with Command := c }
        h1 h2 h3 (by show s.Pwm1_dc = s.Pwm1_reach + (s.Pwm1_dc - s.Pwm1_reach); omega)
        h5 h6
    exact ⟨d1, d2, d4⟩
  · intro h1 h2 h3 h4 h5 c
    obtain ⟨d1, d2, d3, d4, d5, d6⟩ :=
      runSteps_up (s.Pwm1_reach - s.Pwm1_dc) { s with Command := c }
        h1 h2 h3 (by show s.Pwm1_dc + (s.Pwm1_reach - s.Pwm1_dc) = s.Pwm1_reach; omega)
        h5
    exact ⟨d1, d2, d4⟩

/-- Witness for C9 at a concrete mid-motion state. -/
theorem C9_trigger_absorbed_witness :
    ({ initSys with Pwm1_State := MOVINGDOWN, Pwm1_reach := POSIT_END } : Sys).Pwm1_State
        = MOVINGDOWN ∧
    (∀ b : Bool,
      mainStep b { initSys with Pwm1_State := MOVINGDOWN, Pwm1_reach := POSIT_END } =
      mainStep false { initSys with Pwm1_State := MOVINGDOWN, Pwm1_reach := POSIT_END }) :=
  ⟨rfl,
   (C9_trigger_absorbed { initSys with Pwm1_State := MOVINGDOWN, Pwm1_reach := POSIT_END }
     (Or.inr (Or.inl rfl))).1⟩

end RfMotor

namespace Pwmtest2

theorem run2_nil (s : P2) : run2 [] s = s := rfl

theorem run2_cons (e : P2Ev) (evs : List P2Ev) (s : P2) :
    run2 (e :: evs) s = run2 evs (step2 e s) := by
  unfold run2; rw [List.foldl_cons]

theorem run2_inv (P : P2 → Prop) (h : ∀ e s, P s → P (step2 e s)) :
    ∀ (evs : List P2Ev) (s : P2), P s → P (run2 evs s) := by
  intro evs
  induction evs with
  | nil => intro s hs; rw [run2_nil]; exact hs
  | cons e t ih => intro s hs; rw [run2_cons]; exact ih _ (h e s hs)

theorem s2Switch_increase (t : P2) (h : t.Pwm1_State = INCREASE) :
    s2Switch t =
      (if t.Pwm1_dc < PWM1_MAXSTEP then { t with Pwm1_dc := RfMotor.inc16 t.Pwm1_dc }
       else t) := by
  unfold s2Switch
  rw [h]
  simp [POSIT, POSITOLD, INCREASE, DECREASE, MOVINGUP, MOVINGDOWN, WAITINGUP, WAITINGDOWN]

theorem s2Switch_decrease (t : P2) (h : t.Pwm1_State = DECREASE) :
    s2Switch t =
      (if t.Pwm1_dc > 0 then { t with Pwm1_dc := RfMotor.dec16 t.Pwm1_dc } else t) := by
  unfold s2Switch
  rw [h]
  simp [POSIT, POSITOLD, INCREASE, DECREASE, MOVINGUP, MOVINGDOWN, WAITINGUP, WAITINGDOWN]

theorem s2Switch_pres (t : P2) (ht : Inv2 t) : Inv2 (s2Switch t) := by
  obtain ⟨i1, i2, i3, i4⟩ := ht
  have n1 : t.Pwm1_dc ≤ 2000 := i1
  have n2 : t.Pwm1_reach ≤ 2000 := i2
  unfold Inv2 at *
  unfold s2Switch
  split_ifs <;>
    simp_all [PWM1_MAXSTEP, PWMINITIALVALUE, POSIT1, POSIT2, RESET, POSIT, POSITOLD,
      MOVINGUP, MOVINGDOWN, WAITINGUP, WAITINGDOWN, INCREASE, DECREASE,
      RfMotor.inc16, RfMotor.dec16] <;>
    omega

theorem s1Switch_pres (t : P2) (ht : Inv2 t) : Inv2 (s1Switch t) := by
  obtain ⟨i1, i2, i3, i4⟩ := ht
  unfold Inv2 at *
  unfold s1Switch
  split_ifs <;>
    simp_all [RESET, POSIT, POSITOLD, MOVINGUP, MOVINGDOWN, WAITINGUP, WAITINGDOWN,
      INCREASE, DECREASE]

theorem s2Gate_pres (b2 : Bool) (t : P2) (ht : Inv2 t) : Inv2 (s2Gate b2 t) := by
  unfold s2Gate
  split_ifs
  · exact s2Switch_pres t ht
  · exact ht

theorem ledUpd_pres (t : P2) (ht : Inv2 t) : Inv2 (ledUpd t) := by
  obtain ⟨i1, i2, i3, i4⟩ := ht
  unfold Inv2 ledUpd at *
  exact ⟨i1, i2, by simpa using i3, by simpa using i4⟩

theorem mainStep2_pres (b1 b2 : Bool) (t : P2) (ht : Inv2 t) :
    Inv2 (mainStep2 b1 b2 t) := by
  unfold mainStep2
  refine ledUpd_pres _ (s2Gate_pres b2 _ ?_)
  split_ifs
  · exact s1Switch_pres t ht
  · exact ht

theorem timerTick2_pres (t : P2) (ht : Inv2 t) : Inv2 (timerTick2 t) := by
  obtain ⟨i1, i2, i3, i4⟩ := ht
  unfold Inv2 at *
  simp only [timerTick2]
  split_ifs <;> simp_all

theorem p2_inv (evs : List P2Ev) : Inv2 (run2 evs initP2) := by
  refine run2_inv Inv2 ?_ evs initP2 ?_
  · intro e t ht
    cases e with
    | etick => exact timerTick2_pres t ht
    | emain b1 b2 => exact mainStep2_pres b1 b2 t ht
  · refine ⟨by decide, by decide, ?_, ?_⟩ <;> intro hc <;> rcases hc with hc | hc <;>
      simp [initP2, RESET, MOVINGUP, MOVINGDOWN, WAITINGUP, WAITINGDOWN] at hc

end Pwmtest2

namespace RfMotor

/-- C8: duty cycle changes never leave [0, PWM1_MAXSTEP] and never wrap the
16 bit arithmetic.  In pwmtest2.c the INCREASE and DECREASE cases clamp
literally: an increment saturates at PWM1_MAXSTEP and a decrement stops at 0.
In both programs every reachable state keeps Pwm1_dc at most PWM1_MAXSTEP
(it is a Nat, hence never below 0, and the guarded modular decrements never
fire at 0), so no increment exceeds the bound and no decrement wraps. -/
theorem C8_dc_clamped :
    (∀ t : Pwmtest2.P2, t.Pwm1_State = Pwmtest2.INCREASE →
      t.Pwm1_dc ≤ Pwmtest2.PWM1_MAXSTEP →
      (Pwmtest2.s2Switch t).Pwm1_dc = min (t.Pwm1_dc + 1) Pwmtest2.PWM1_MAXSTEP) ∧
    (∀ t : Pwmtest2.P2, t.Pwm1_State = Pwmtest2.DECREASE →
      t.Pwm1_dc ≤ Pwmtest2.PWM1_MAXSTEP →
      (Pwmtest2.s2Switch t).Pwm1_dc = t.Pwm1_dc - 1) ∧
    (∀ evs : List Ev, (run evs initSys).Pwm1_dc ≤ PWM1_MAXSTEP) ∧
    (∀ evs : List Pwmtest2.P2Ev,
      (Pwmtest2.run2 evs Pwmtest2.initP2).Pwm1_dc ≤ Pwmtest2.PWM1_MAXSTEP) := by
  refine ⟨?_, ?_, ?_, ?_⟩
  · intro t h1 h2
    rw [Pwmtest2.s2Switch_increase t h1]
    have n2 : t.Pwm1_dc ≤ 2000 := h2
    split_ifs with hlt
    · have hlt2 : t.Pwm1_dc < 2000 := hlt
      show inc16 t.Pwm1_dc = min (t.Pwm1_dc + 1) 2000
      rw [inc16_eq (by omega)]
      omega
    · have hge : ¬ t.Pwm1_dc < 2000 := hlt
      show t.Pwm1_dc = min (t.Pwm1_dc + 1) 2000
      omega
  · intro t h1 h2
    rw [Pwmtest2.s2Switch_decrease t h1]
    have n2 : t.Pwm1_dc ≤ 2000 := h2
    split_ifs with hpos
    · show dec16 t.Pwm1_dc = t.Pwm1_dc - 1
      exact dec16_eq hpos (by omega)
    · omega
  · intro evs
    obtain ⟨⟨i1, i2⟩, i3, i4, i5⟩ := rf_inv evs
    have : (run evs initSys).Pwm1_dc ≤ 161 := i2
    show (run evs initSys).Pwm1_dc ≤ 2000
    omega
  · intro evs
    exact (Pwmtest2.p2_inv evs).1

/-- Witness for C8 at concrete inputs. -/
theorem C8_dc_clamped_witness :
    (({ Pwmtest2.initP2 with
          Pwm1_State := Pwmtest2.INCREASE,
          Pwm1_dc := Pwmtest2.PWM1_MAXSTEP } : Pwmtest2.P2).Pwm1_State
      = Pwmtest2.INCREASE) ∧
    (Pwmtest2.s2Switch { Pwmtest2.initP2 with
          Pwm1_State := Pwmtest2.INCREASE,
          Pwm1_dc := Pwmtest2.PWM1_MAXSTEP }).Pwm1_dc
      = min (Pwmtest2.PWM1_MAXSTEP + 1) Pwmtest2.PWM1_MAXSTEP ∧
    (Pwmtest2.s2Switch { Pwmtest2.initP2 with
          Pwm1_State := Pwmtest2.DECREASE,
          Pwm1_dc := 0 }).Pwm1_dc = 0 - 1 :=
  ⟨rfl,
   C8_dc_clamped.1 { Pwmtest2.initP2 with
      Pwm1_State := Pwmtest2.INCREASE,
      Pwm1_dc := Pwmtest2.PWM1_MAXSTEP } rfl (by decide),
   C8_dc_clamped.2.1 { Pwmtest2.initP2 with
      Pwm1_State := Pwmtest2.DECREASE,
      Pwm1_dc := 0 } rfl (by decide)⟩

end RfMotor

namespace RfMotor

theorem rfDetStep_high_count (s : Sys) (hd : s.RfDetState = DETHIGH)
    (hc : s.RfDetCounter < COUNTHIGH) :
    rfDetStep true s = { s with RfDetCounter := inc16 s.RfDetCounter } := by
  unfold rfDetStep
  rw [hd]
  simp [IDLE, DETHIGH, DETLOW, DETEND, hc]

theorem rfDetStep_high_tol (s : Sys) (hd : s.RfDetState = DETHIGH)
    (hc : s.RfDetCounter ≥ COUNTHIGH - COUNTOLER) :
    rfDetStep false s = { s with RfDetState := DETLOW, RfDetCounter := 0 } := by
  unfold rfDetStep
  rw [hd]
  simp [IDLE, DETHIGH, DETLOW, DETEND, hc]

theorem rfDetStep_high_fail (s : Sys) (hd : s.RfDetState = DETHIGH)
    (hc : ¬ s.RfDetCounter ≥ COUNTHIGH - COUNTOLER) :
    rfDetStep false s = { s with RfDetState := DETEND, RfDetected := false } := by
  unfold rfDetStep
  rw [hd]
  simp [IDLE, DETHIGH, DETLOW, DETEND, hc]

theorem rfDetStep_low_count (s : Sys) (hd : s.RfDetState = DETLOW)
    (hc : s.RfDetCounter < COUNTLOW) :
    rfDetStep false s = { s with RfDetCounter := inc16 s.RfDetCounter } := by
  unfold rfDetStep
  rw [hd]
  simp [IDLE, DETHIGH, DETLOW, DETEND, hc]

theorem rfDetStep_low_done (s : Sys) (hd : s.RfDetState = DETLOW)
    (hc : ¬ s.RfDetCounter < COUNTLOW) :
    rfDetStep false s =
      { s with RfDetState := DETEND, RfDetCounter := 0, RfDetected := true } := by
  unfold rfDetStep
  rw [hd]
  simp [IDLE, DETHIGH, DETLOW, DETEND, hc]

theorem timerTick_posit_rfFields (l : Bool) (s : Sys) (hp : s.Pwm1_State = POSIT) :
    (timerTick l s).RfDetState = (rfDetStep l s).RfDetState ∧
    (timerTick l s).RfDetCounter = (rfDetStep l s).RfDetCounter ∧
    (timerTick l s).RfDetected = (rfDetStep l s).RfDetected := by
  unfold timerTick
  rw [if_pos hp]
  exact ⟨by simp, by simp, by simp⟩

theorem tick_iter_dethigh : ∀ (n : Nat) (s : Sys), s.Pwm1_State = POSIT →
    s.RfDetState = DETHIGH → s.RfDetCounter + n ≤ COUNTHIGH →
    ((timerTick true)^[n] s).Pwm1_State = POSIT ∧
    ((timerTick true)^[n] s).RfDetState = DETHIGH ∧
    ((timerTick true)^[n] s).RfDetCounter = s.RfDetCounter + n ∧
    ((timerTick true)^[n] s).RfDetected = s.RfDetected := by
  intro n
  induction n with
  | zero =>
      intro s hp hd hc
      refine ⟨?_, ?_, ?_, ?_⟩ <;> simp [hp, hd]
  | succ n ih =>
      intro s hp hd hc
      have hlt : s.RfDetCounter < COUNTHIGH := by
        unfold COUNTHIGH at *
        omega
      have hone : rfDetStep true s = { s with RfDetCounter := inc16 s.RfDetCounter } :=
        rfDetStep_high_count s hd hlt
      obtain ⟨f1, f2, f3⟩ := timerTick_posit_rfFields true s hp
      have hinc : inc16 s.RfDetCounter = s.RfDetCounter + 1 := by
        refine inc16_eq ?_
        unfold COUNTHIGH at hlt
        omega
      rw [Function.iterate_succ_apply]
      obtain ⟨g1, g2, g3, g4⟩ := ih (timerTick true s) (by simp [hp])
        (by rw [f1, hone]; exact hd)
        (by rw [f2, hone]; show inc16 s.RfDetCounter + n ≤ COUNTHIGH; omega)
      refine ⟨g1, g2, ?_, ?_⟩
      · rw [g3, f2, hone]
        show inc16 s.RfDetCounter + n = s.RfDetCounter + (n + 1)
        omega
      · rw [g4, f3, hone]

theorem tick_iter_detlow : ∀ (n : Nat) (s : Sys), s.Pwm1_State = POSIT →
    s.RfDetState = DETLOW → s.RfDetCounter + n ≤ COUNTLOW →
    ((timerTick false)^[n] s).Pwm1_State = POSIT ∧
    ((timerTick false)^[n] s).RfDetState = DETLOW ∧
    ((timerTick false)^[n] s).RfDetCounter = s.RfDetCounter + n ∧
    ((timerTick false)^[n] s).RfDetected = s.RfDetected := by
  intro n
  induction n with
  | zero =>
      intro s hp hd hc
      refine ⟨?_, ?_, ?_, ?_⟩ <;> simp [hp, hd]
  | succ n ih =>
      intro s hp hd hc
      have hlt : s.RfDetCounter < COUNTLOW := by
        unfold COUNTLOW at *
        omega
      have hone : rfDetStep false s = { s with RfDetCounter := inc16 s.RfDetCounter } :=
        rfDetStep_low_count s hd hlt
      obtain ⟨f1, f2, f3⟩ := timerTick_posit_rfFields false s hp
      have hinc : inc16 s.RfDetCounter = s.RfDetCounter + 1 := by
        refine inc16_eq ?_
        unfold COUNTLOW at hlt
        omega
      rw [Function.iterate_succ_apply]
      obtain ⟨g1, g2, g3, g4⟩ := ih (timerTick false s) (by simp [hp])
        (by rw [f1, hone]; exact hd)
        (by rw [f2, hone]; show inc16 s.RfDetCounter + n ≤ COUNTLOW; omega)
      refine ⟨g1, g2, ?_, ?_⟩
      · rw [g3, f2, hone]
        show inc16 s.RfDetCounter + n = s.RfDetCounter + (n + 1)
        omega
      · rw [g4, f3, hone]

end RfMotor

namespace RfMotor

end RfMotor

namespace RfMotor

theorem tick_posit_state (n : Nat) (l : Bool) : ∀ (t : Sys), t.Pwm1_State = POSIT →
    ((timerTick l)^[n] t).Pwm1_State = POSIT := by
  induction n with
  | zero => intro t ht; simpa using ht
  | succ n ih =>
      intro t ht
      rw [Function.iterate_succ_apply']
      simpa using ih t ht

theorem tick_high_tol_fields (u : Sys) (hp : u.Pwm1_State = POSIT)
    (hd : u.RfDetState = DETHIGH) (hge : u.RfDetCounter ≥ COUNTHIGH - COUNTOLER) :
    (timerTick false u).Pwm1_State = POSIT ∧ (timerTick false u).RfDetState = DETLOW ∧
    (timerTick false u).RfDetCounter = 0 ∧
    (timerTick false u).RfDetected = u.RfDetected := by
  obtain ⟨f1, f2, f3⟩ := timerTick_posit_rfFields false u hp
  have htol := rfDetStep_high_tol u hd hge
  exact ⟨by simp [hp], by rw [f1, htol], by rw [f2, htol], by rw [f3, htol]⟩

theorem tick_high_fail_fields (u : Sys) (hp : u.Pwm1_State = POSIT)
    (hd : u.RfDetState = DETHIGH) (hlt : ¬ u.RfDetCounter ≥ COUNTHIGH - COUNTOLER) :
    (timerTick false u).RfDetState = DETEND ∧ (timerTick false u).RfDetected = false := by
  obtain ⟨f1, f2, f3⟩ := timerTick_posit_rfFields false u hp
  have hfail := rfDetStep_high_fail u hd hlt
  exact ⟨by rw [f1, hfail], by rw [f3, hfail]⟩

theorem tick_low_count_fields (u : Sys) (hp : u.Pwm1_State = POSIT)
    (hd : u.RfDetState = DETLOW) (hlt : u.RfDetCounter < COUNTLOW) :
    (timerTick false u).Pwm1_State = POSIT ∧ (timerTick false u).RfDetState = DETLOW ∧
    (timerTick false u).RfDetCounter = inc16 u.RfDetCounter ∧
    (timerTick false u).RfDetected = u.RfDetected := by
  obtain ⟨f1, f2, f3⟩ := timerTick_posit_rfFields false u hp
  have hstep := rfDetStep_low_count u hd hlt
  exact ⟨by simp [hp], by rw [f1, hstep]; exact hd, by rw [f2, hstep], by rw [f3, hstep]⟩

theorem tick_low_done_fields (u : Sys) (hp : u.Pwm1_State = POSIT)
    (hd : u.RfDetState = DETLOW) (hge : ¬ u.RfDetCounter < COUNTLOW) :
    (timerTick false u).RfDetState = DETEND ∧ (timerTick false u).RfDetected = true := by
  obtain ⟨f1, f2, f3⟩ := timerTick_posit_rfFields false u hp
  have hdone := rfDetStep_low_done u hd hge
  exact ⟨by rw [f1, hdone], by rw [f3, hdone]⟩

theorem exact_counts_leave_false (s : Sys) (hp : s.Pwm1_State = POSIT)
    (hd : s.RfDetState = DETHIGH) (hc : s.RfDetCounter = 0)
    (hdet : s.RfDetected = false) :
    ((timerTick false)^[COUNTLOW] ((timerTick true)^[COUNTHIGH] s)).RfDetected = false ∧
    ((timerTick false)^[COUNTLOW] ((timerTick true)^[COUNTHIGH] s)).RfDetState = DETLOW ∧
    ((timerTick false)^[COUNTLOW] ((timerTick true)^[COUNTHIGH] s)).RfDetCounter
      = COUNTLOW - 1 ∧
    ((timerTick false)^[COUNTLOW] ((timerTick true)^[COUNTHIGH] s)).Pwm1_State = POSIT := by
  obtain ⟨a1, a2, a3, a4⟩ := tick_iter_dethigh COUNTHIGH s hp hd (by omega)
  have hge : ((timerTick true)^[COUNTHIGH] s).RfDetCounter ≥ COUNTHIGH - COUNTOLER := by
    rw [a3, hc]
    decide
  obtain ⟨t1p, t1d, t1c, t1det0⟩ :=
    tick_high_tol_fields ((timerTick true)^[COUNTHIGH] s) a1 a2 hge
  have t1det : (timerTick false ((timerTick true)^[COUNTHIGH] s)).RfDetected = false := by
    rw [t1det0, a4, hdet]
  rw [show COUNTLOW = 623 + 1 from by decide, Function.iterate_add_apply]
  simp only [Function.iterate_one]
  obtain ⟨g1, g2, g3, g4⟩ :=
    tick_iter_detlow 623 (timerTick false ((timerTick true)^[COUNTHIGH] s)) t1p t1d
      (by rw [t1c]; decide)
  refine ⟨?_, g2, ?_, g1⟩
  · rw [g4, t1det]
  · rw [g3, t1c]

/-- C5 is false on the code: from DETHIGH with counter 0 at rest, an input
held HIGH for exactly COUNTHIGH ticks and then LOW for exactly COUNTLOW
ticks leaves RfDetected = FALSE (the machine is still inside DETLOW, one
increment short of the threshold and two ticks short of the success
transition). -/
theorem C5_counterexample :
    ((timerTick false)^[COUNTLOW]
      ((timerTick true)^[COUNTHIGH]
        { initSys with RfDetState := DETHIGH })).RfDetected = false :=
  (exact_counts_leave_false { initSys with RfDetState := DETHIGH }
    rfl rfl rfl rfl).1

/-- C5 amended: from DETHIGH with counter 0 at rest, HIGH for exactly
COUNTHIGH ticks then LOW for exactly COUNTLOW + 2 ticks yields
RfDetected = TRUE (the first LOW tick completes the high phase through the
tolerance branch and the success transition fires on the tick after the low
counter reaches COUNTLOW); after exactly COUNTLOW low ticks RfDetected is
still FALSE; and HIGH for only COUNTHIGH - COUNTOLER - 1 ticks followed by
one LOW tick yields RfDetected = FALSE. -/
theorem C5_amended_qualifier_scenarios (s : Sys) (hp : s.Pwm1_State = POSIT)
    (hd : s.RfDetState = DETHIGH) (hc : s.RfDetCounter = 0)
    (hdet : s.RfDetected = false) :
    ((timerTick false)^[COUNTLOW + 2] ((timerTick true)^[COUNTHIGH] s)).RfDetected
      = true ∧
    ((timerTick false)^[COUNTLOW] ((timerTick true)^[COUNTHIGH] s)).RfDetected
      = false ∧
    (timerTick false
      ((timerTick true)^[COUNTHIGH - COUNTOLER - 1] s)).RfDetected = false := by
  obtain ⟨e1, e2, e3, e4⟩ := exact_counts_leave_false s hp hd hc hdet
  refine ⟨?_, e1, ?_⟩
  · obtain ⟨m1, m2, m3, m4⟩ :=
      tick_low_count_fields ((timerTick false)^[COUNTLOW] ((timerTick true)^[COUNTHIGH] s))
        e4 e2 (by rw [e3]; decide)
    have m3v : (timerTick false
        ((timerTick false)^[COUNTLOW] ((timerTick true)^[COUNTHIGH] s))).RfDetCounter
        = COUNTLOW := by
      rw [m3, e3]
      decide
    obtain ⟨k1, k2⟩ := tick_low_done_fields
      (timerTick false ((timerTick false)^[COUNTLOW] ((timerTick true)^[COUNTHIGH] s)))
      m1 m2 (by rw [m3v]; decide)
    rw [show COUNTLOW + 2 = COUNTLOW + 1 + 1 from rfl, Function.iterate_succ_apply',
        Function.iterate_succ_apply']
    exact k2
  · obtain ⟨a1, a2, a3, a4⟩ :=
      tick_iter_dethigh (COUNTHIGH - COUNTOLER - 1) s hp hd (by omega)
    obtain ⟨k1, k2⟩ := tick_high_fail_fields ((timerTick true)^[COUNTHIGH - COUNTOLER - 1] s)
      a1 a2 (by rw [a3, hc]; decide)
    exact k2

/-- Witness for the amended C5 at the concrete armed state. -/
theorem C5_amended_witness :
    (({ initSys with RfDetState := DETHIGH } : Sys).Pwm1_State = POSIT ∧
     ({ initSys with RfDetState := DETHIGH } : Sys).RfDetState = DETHIGH ∧
     ({ initSys with RfDetState := DETHIGH } : Sys).RfDetCounter = 0 ∧
     ({ initSys with RfDetState := DETHIGH } : Sys).RfDetected = false) ∧
    ((timerTick false)^[COUNTLOW + 2]
      ((timerTick true)^[COUNTHIGH] { initSys with RfDetState := DETHIGH })).RfDetected
      = true :=
  ⟨⟨rfl, rfl, rfl, rfl⟩,
   (C5_amended_qualifier_scenarios { initSys with RfDetState := DETHIGH }
      rfl rfl rfl rfl).1⟩

end RfMotor

namespace RfMotor

theorem crun_nil (s : CSt) : crun [] s = s := rfl

theorem crun_cons (e : CEv) (evs : List CEv) (s : CSt) :
    crun (e :: evs) s = crun evs (cstep e s) := by
  unfold crun; rw [List.foldl_cons]

theorem fires_cmain (p : Nat) (d q : Bool) (evs : List CEv) :
    fires p (CEv.cmain d q :: evs) = fires p evs := rfl

theorem fires_ctick (p : Nat) (evs : List CEv) :
    fires p (CEv.ctick :: evs) =
      (if p ≠ 0 then fires (p - 1) evs else 1 + fires PRESCALER evs) := rfl

theorem cmdRises_cons (e : CEv) (evs : List CEv) (s : CSt) :
    cmdRises (e :: evs) s =
      (if s.command = false ∧ (cstep e s).command = true then 1 else 0) +
        cmdRises evs (cstep e s) := rfl

@[simp] theorem ctickStep_st (s : CSt) : (ctickStep s).st = s.st := by
  simp only [ctickStep]; split_ifs <;> rfl

@[simp] theorem ctickStep_command (s : CSt) : (ctickStep s).command = s.command := by
  simp only [ctickStep]; split_ifs <;> rfl

@[simp] theorem ctickStep_led (s : CSt) : (ctickStep s).led = s.led := by
  simp only [ctickStep]; split_ifs <;> rfl

theorem ctickStep_prescaler (s : CSt) :
    (ctickStep s).prescaler =
      (if s.prescaler ≠ 0 then s.prescaler - 1 else PRESCALER) := by
  simp only [ctickStep]; split_ifs <;> rfl

theorem ctickStep_longDelay (s : CSt) :
    (ctickStep s).longDelay =
      (if s.prescaler ≠ 0 then s.longDelay
       else if s.longDelay ≠ 0 then s.longDelay - 1 else s.longDelay) := by
  simp only [ctickStep]; split_ifs <;> rfl

theorem cmain_idle_go (d q : Bool) (s : CSt) (h : s.st = IDLE) (hd : d = true)
    (hq : q = true) :
    cmainStep d q s = { s with longDelay := VALIDATE_RF, st := VALIDATE } := by
  unfold cmainStep
  rw [h]
  simp [IDLE, VALIDATE, WAITDETEND, IGNORE, hd, hq]

theorem cmain_idle_stay (d q : Bool) (s : CSt) (h : s.st = IDLE)
    (h2 : ¬ (d = true ∧ q = true)) :
    cmainStep d q s = s := by
  unfold cmainStep
  rw [h]
  simp [IDLE, VALIDATE, WAITDETEND, IGNORE, h2]

theorem cmain_validate_wait (d q : Bool) (s : CSt) (h : s.st = VALIDATE) (hd : d = true)
    (hnz : s.longDelay ≠ 0) :
    cmainStep d q s = s := by
  unfold cmainStep
  rw [h]
  simp [IDLE, VALIDATE, WAITDETEND, IGNORE, hd, hnz]

theorem cmain_ignore_stay (d q : Bool) (s : CSt) (h : s.st = IGNORE)
    (hnz : s.longDelay ≠ 0) :
    cmainStep d q s = s := by
  unfold cmainStep
  rw [h]
  simp [IDLE, VALIDATE, WAITDETEND, IGNORE, hnz]

theorem conf_pulse_safe : ∀ (evs : List CEv) (s : CSt), s.command = false →
    ((s.st = IDLE ∧ fires s.prescaler evs < VALIDATE_RF) ∨
     (s.st = VALIDATE ∧ fires s.prescaler evs < s.longDelay)) →
    allDetTrue evs → (crun evs s).command = false := by
  intro evs
  induction evs with
  | nil =>
      intro s hcmd hinv hall
      rw [crun_nil]
      exact hcmd
  | cons e rest ih =>
      intro s hcmd hinv hall
      have hallrest : allDetTrue rest := by
        intro d p hm
        exact hall d p (List.mem_cons_of_mem _ hm)
      rw [crun_cons]
      cases e with
      | cmain d q =>
          have hd : d = true := hall d q (List.mem_cons_self _ _)
          rcases hinv with ⟨hst, hf⟩ | ⟨hst, hf⟩
          · rw [fires_cmain] at hf
            by_cases hq : q = true
            · have hstep := cmain_idle_go d q s hst hd hq
              refine ih (cstep (CEv.cmain d q) s) ?_ ?_ hallrest
              · show (cmainStep d q s).command = false
                rw [hstep]
                exact hcmd
              · refine Or.inr ⟨?_, ?_⟩
                · show (cmainStep d q s).st = VALIDATE
                  rw [hstep]
                · show fires (cmainStep d q s).prescaler rest <
                    (cmainStep d q s).longDelay
                  rw [hstep]
                  exact hf
            · have hstep := cmain_idle_stay d q s hst (by simp [hq])
              refine ih (cstep (CEv.cmain d q) s) ?_ ?_ hallrest
              · show (cmainStep d q s).command = false
                rw [hstep]
                exact hcmd
              · refine Or.inl ⟨?_, ?_⟩
                · show (cmainStep d q s).st = IDLE
                  rw [hstep]
                  exact hst
                · show fires (cmainStep d q s).prescaler rest < VALIDATE_RF
                  rw [hstep]
                  exact hf
          · rw [fires_cmain] at hf
            have hnz : s.longDelay ≠ 0 := by omega
            have hstep := cmain_validate_wait d q s hst hd hnz
            refine ih (cstep (CEv.cmain d q) s) ?_ ?_ hallrest
            · show (cmainStep d q s).command = false
              rw [hstep]
              exact hcmd
            · refine Or.inr ⟨?_, ?_⟩
              · show (cmainStep d q s).st = VALIDATE
                rw [hstep]
                exact hst
              · show fires (cmainStep d q s).prescaler rest <
                  (cmainStep d q s).longDelay
                rw [hstep]
                exact hf
      | ctick =>
          rw [fires_ctick] at hinv
          refine ih (cstep CEv.ctick s) (by show (ctickStep s).command = false; simp [hcmd])
            ?_ hallrest
          rcases hinv with ⟨hst, hf⟩ | ⟨hst, hf⟩
          · refine Or.inl ⟨by show (ctickStep s).st = IDLE; simp [hst], ?_⟩
            show fires (ctickStep s).prescaler rest < VALIDATE_RF
            rw [ctickStep_prescaler]
            by_cases hp : s.prescaler ≠ 0
            · rw [if_pos hp]
              rw [if_pos hp] at hf
              exact hf
            · rw [if_neg hp]
              rw [if_neg hp] at hf
              omega
          · refine Or.inr ⟨by show (ctickStep s).st = VALIDATE; simp [hst], ?_⟩
            show fires (ctickStep s).prescaler rest < (ctickStep s).longDelay
            rw [ctickStep_prescaler, ctickStep_longDelay]
            by_cases hp : s.prescaler ≠ 0
            · rw [if_pos hp, if_pos hp]
              rw [if_pos hp] at hf
              exact hf
            · rw [if_neg hp, if_neg hp]
              rw [if_neg hp] at hf
              have hld : s.longDelay ≠ 0 := by omega
              rw [if_pos hld]
              omega

theorem conf_ignore_safe : ∀ (evs : List CEv) (s : CSt), s.st = IGNORE →
    fires s.prescaler evs < s.longDelay →
    (crun evs s).st = IGNORE ∧ cmdRises evs s = 0 := by
  intro evs
  induction evs with
  | nil =>
      intro s hst hf
      rw [crun_nil]
      exact ⟨hst, rfl⟩
  | cons e rest ih =>
      intro s hst hf
      rw [crun_cons, cmdRises_cons]
      cases e with
      | cmain d q =>
          rw [fires_cmain] at hf
          have hnz : s.longDelay ≠ 0 := by omega
          have hstep : cstep (CEv.cmain d q) s = s := cmain_ignore_stay d q s hst hnz
          rw [hstep]
          obtain ⟨r1, r2⟩ := ih s hst hf
          refine ⟨r1, ?_⟩
          rw [r2]
          simp
      | ctick =>
          rw [fires_ctick] at hf
          have hint : (cstep CEv.ctick s).st = IGNORE := by
            show (ctickStep s).st = IGNORE
            simp [hst]
          have hfr : fires (cstep CEv.ctick s).prescaler rest <
              (cstep CEv.ctick s).longDelay := by
            show fires (ctickStep s).prescaler rest < (ctickStep s).longDelay
            rw [ctickStep_prescaler, ctickStep_longDelay]
            by_cases hp : s.prescaler ≠ 0
            · rw [if_pos hp, if_pos hp]
              rw [if_pos hp] at hf
              exact hf
            · rw [if_neg hp, if_neg hp]
              rw [if_neg hp] at hf
              have hld : s.longDelay ≠ 0 := by omega
              rw [if_pos hld]
              omega
          obtain ⟨r1, r2⟩ := ih (cstep CEv.ctick s) hint hfr
          refine ⟨r1, ?_⟩
          rw [r2]
          have : (cstep CEv.ctick s).command = s.command := by
            show (ctickStep s).command = s.command
            simp
          simp [this]

end RfMotor

namespace RfMotor

theorem crun_append (a b : List CEv) (s : CSt) :
    crun (a ++ b) s = crun b (crun a s) := by
  unfold crun; rw [List.foldl_append]

theorem cmdRises_append : ∀ (a b : List CEv) (s : CSt),
    cmdRises (a ++ b) s = cmdRises a s + cmdRises b (crun a s) := by
  intro a
  induction a with
  | nil => intro b s; rw [crun_nil]; simp [cmdRises]
  | cons e rest ih =>
      intro b s
      rw [List.cons_append, cmdRises_cons, cmdRises_cons, crun_cons, ih]
      omega

theorem crun_replicate_ctick : ∀ (k : Nat) (s : CSt),
    crun (List.replicate k CEv.ctick) s = ctickStep^[k] s := by
  intro k
  induction k with
  | zero => intro s; rw [List.replicate_zero, crun_nil]; rfl
  | succ n ih =>
      intro s
      rw [List.replicate_succ, crun_cons, Function.iterate_succ_apply]
      exact ih (cstep CEv.ctick s)

theorem cmdRises_replicate_ctick : ∀ (k : Nat) (s : CSt),
    cmdRises (List.replicate k CEv.ctick) s = 0 := by
  intro k
  induction k with
  | zero => intro s; rfl
  | succ n ih =>
      intro s
      rw [List.replicate_succ, cmdRises_cons, ih (cstep CEv.ctick s)]
      have hcm : (cstep CEv.ctick s).command = s.command := by
        show (ctickStep s).command = s.command
        simp
      rcases hb : s.command with _ | _ <;> simp [hcm, hb]

theorem ctick_iter_le : ∀ (k : Nat) (s : CSt), k ≤ s.prescaler →
    (ctickStep^[k] s).st = s.st ∧ (ctickStep^[k] s).command = s.command ∧
    (ctickStep^[k] s).led = s.led ∧ (ctickStep^[k] s).prescaler = s.prescaler - k ∧
    (ctickStep^[k] s).longDelay = s.longDelay := by
  intro k
  induction k with
  | zero => intro s hk; simp
  | succ n ih =>
      intro s hk
      have hp : s.prescaler ≠ 0 := by omega
      have hstep : (ctickStep s).prescaler = s.prescaler - 1 := by
        rw [ctickStep_prescaler, if_pos hp]
      have hld : (ctickStep s).longDelay = s.longDelay := by
        rw [ctickStep_longDelay, if_pos hp]
      rw [Function.iterate_succ_apply]
      obtain ⟨g1, g2, g3, g4, g5⟩ := ih (ctickStep s) (by rw [hstep]; omega)
      refine ⟨by rw [g1]; simp, by rw [g2]; simp, by rw [g3]; simp, ?_, by rw [g5, hld]⟩
      rw [g4, hstep]
      omega

theorem unit_fields (s : CSt) (hp : s.prescaler = PRESCALER) :
    (crun unitEvs s).st = s.st ∧ (crun unitEvs s).command = s.command ∧
    (crun unitEvs s).led = s.led ∧ (crun unitEvs s).prescaler = PRESCALER ∧
    (crun unitEvs s).longDelay = s.longDelay - 1 ∧ cmdRises unitEvs s = 0 := by
  have hev : unitEvs = List.replicate (PRESCALER + 1) CEv.ctick := rfl
  have hrises : cmdRises unitEvs s = 0 := by
    rw [hev]
    exact cmdRises_replicate_ctick (PRESCALER + 1) s
  have hrun : crun unitEvs s = ctickStep (ctickStep^[PRESCALER] s) := by
    rw [hev, crun_replicate_ctick, Function.iterate_succ_apply']
  obtain ⟨g1, g2, g3, g4, g5⟩ := ctick_iter_le PRESCALER s (by omega)
  have hzero : (ctickStep^[PRESCALER] s).prescaler = 0 := by
    rw [g4, hp]
    omega
  have hnz : ¬ (ctickStep^[PRESCALER] s).prescaler ≠ 0 := by
    rw [hzero]
    simp
  refine ⟨?_, ?_, ?_, ?_, ?_, hrises⟩
  · rw [hrun]
    simp [g1]
  · rw [hrun]
    simp [g2]
  · rw [hrun]
    simp [g3]
  · rw [hrun, ctickStep_prescaler, if_neg hnz]
  · rw [hrun, ctickStep_longDelay, if_neg hnz, g5]
    rcases hld : s.longDelay with _ | m <;> simp

theorem cmain_validate_go (d q : Bool) (s : CSt) (h : s.st = VALIDATE) (hd : d = true)
    (hz : s.longDelay = 0) :
    cmainStep d q s =
      { s with led := true, longDelay := WAITEND_RF, st := WAITDETEND } := by
  unfold cmainStep
  rw [h]
  simp [IDLE, VALIDATE, WAITDETEND, IGNORE, hd, hz]

theorem cmain_waitend_hold (d q : Bool) (s : CSt) (h : s.st = WAITDETEND)
    (hd : d = false) (hnz : s.longDelay ≠ 0) :
    cmainStep d q s = s := by
  unfold cmainStep
  rw [h]
  simp [IDLE, VALIDATE, WAITDETEND, IGNORE, hd, hnz]

theorem cmain_waitend_emit (d q : Bool) (s : CSt) (h : s.st = WAITDETEND)
    (hd : d = false) (hz : s.longDelay = 0) :
    cmainStep d q s =
      { s with led := false, command := true, st := IGNORE, longDelay := IGNORE_RF } := by
  unfold cmainStep
  rw [h]
  simp [IDLE, VALIDATE, WAITDETEND, IGNORE, hd, hz]

theorem crun_single (e : CEv) (X : CSt) : crun [e] X = cstep e X := by
  rw [crun_cons, crun_nil]

theorem cstep_cmain (d q : Bool) (X : CSt) : cstep (CEv.cmain d q) X = cmainStep d q X :=
  rfl

theorem cmain_validate_go_fields (d q : Bool) (X : CSt) (h : X.st = VALIDATE)
    (hd : d = true) (hz : X.longDelay = 0) :
    (cmainStep d q X).st = WAITDETEND ∧ (cmainStep d q X).command = X.command ∧
    (cmainStep d q X).prescaler = X.prescaler ∧
    (cmainStep d q X).longDelay = WAITEND_RF ∧ (cmainStep d q X).led = true := by
  rw [cmain_validate_go d q X h hd hz]
  exact ⟨rfl, rfl, rfl, rfl, rfl⟩

theorem cmain_waitend_emit_fields (d q : Bool) (X : CSt) (h : X.st = WAITDETEND)
    (hd : d = false) (hz : X.longDelay = 0) :
    (cmainStep d q X).st = IGNORE ∧ (cmainStep d q X).command = true ∧
    (cmainStep d q X).prescaler = X.prescaler ∧
    (cmainStep d q X).longDelay = IGNORE_RF ∧ (cmainStep d q X).led = false := by
  rw [cmain_waitend_emit d q X h hd hz]
  exact ⟨rfl, rfl, rfl, rfl, rfl⟩

theorem val_phases : ∀ (k : Nat) (s : CSt), 1 ≤ k → s.st = VALIDATE →
    s.command = false → s.prescaler = PRESCALER → s.longDelay = k →
    (crun (List.flatten (List.replicate k (unitEvs ++ [CEv.cmain true true]))) s).st
      = WAITDETEND ∧
    (crun (List.flatten (List.replicate k (unitEvs ++ [CEv.cmain true true]))) s).command
      = false ∧
    (crun (List.flatten (List.replicate k (unitEvs ++ [CEv.cmain true true]))) s).prescaler
      = PRESCALER ∧
    (crun (List.flatten (List.replicate k (unitEvs ++ [CEv.cmain true true]))) s).longDelay
      = WAITEND_RF ∧
    cmdRises (List.flatten (List.replicate k (unitEvs ++ [CEv.cmain true true]))) s = 0 := by
  intro k
  induction k with
  | zero => intro s h1; exact absurd h1 (by omega)
  | succ n ih =>
      intro s h1 hst hcmd hp hld
      rw [List.replicate_succ, List.flatten_cons, List.append_assoc, crun_append,
          cmdRises_append, crun_append, cmdRises_append]
      obtain ⟨u1, u2, u3, u4, u5, u6⟩ := unit_fields s hp
      rw [crun_single, cstep_cmain]
      have hbc : (crun unitEvs s).command = false := by rw [u2, hcmd]
      by_cases hn : n = 0
      · subst hn
        have hz : (crun unitEvs s).longDelay = 0 := by
          rw [u5, hld]
        obtain ⟨w1, w2, w3, w4, w5⟩ := cmain_validate_go_fields true true (crun unitEvs s)
          (by rw [u1]; exact hst) rfl hz
        have hrest : List.flatten (List.replicate 0 (unitEvs ++ [CEv.cmain true true]))
            = ([] : List CEv) := rfl
        rw [hrest, crun_nil]
        refine ⟨w1, ?_, ?_, w4, ?_⟩
        · rw [w2, hbc]
        · rw [w3, u4]
        · rw [u6]
          have hi : cmdRises [CEv.cmain true true] (crun unitEvs s) = 0 := by
            rw [cmdRises_cons, cstep_cmain, w2, hbc]
            simp [cmdRises]
          rw [hi]
          rfl
      · have hnz : (crun unitEvs s).longDelay ≠ 0 := by
          rw [u5, hld]
          omega
        have hhold := cmain_validate_wait true true (crun unitEvs s) (by rw [u1]; exact hst)
          rfl hnz
        rw [hhold]
        obtain ⟨g1, g2, g3, g4, g5⟩ := ih (crun unitEvs s) (by omega)
          (by rw [u1]; exact hst) hbc u4
          (by rw [u5, hld]; omega)
        refine ⟨g1, g2, g3, g4, ?_⟩
        rw [u6, g5]
        have hi : cmdRises [CEv.cmain true true] (crun unitEvs s) = 0 := by
          rw [cmdRises_cons, cstep_cmain, hhold, hbc]
          simp [cmdRises]
        rw [hi]

theorem wait_phases : ∀ (k : Nat) (s : CSt), 1 ≤ k → s.st = WAITDETEND →
    s.command = false → s.prescaler = PRESCALER → s.longDelay = k →
    (crun (List.flatten (List.replicate k (unitEvs ++ [CEv.cmain false true]))) s).st
      = IGNORE ∧
    (crun (List.flatten (List.replicate k (unitEvs ++ [CEv.cmain false true]))) s).command
      = true ∧
    (crun (List.flatten (List.replicate k (unitEvs ++ [CEv.cmain false true]))) s).prescaler
      = PRESCALER ∧
    (crun (List.flatten (List.replicate k (unitEvs ++ [CEv.cmain false true]))) s).longDelay
      = IGNORE_RF ∧
    cmdRises (List.flatten (List.replicate k (unitEvs ++ [CEv.cmain false true]))) s = 1 := by
  intro k
  induction k with
  | zero => intro s h1; exact absurd h1 (by omega)
  | succ n ih =>
      intro s h1 hst hcmd hp hld
      rw [List.replicate_succ, List.flatten_cons, List.append_assoc, crun_append,
          cmdRises_append, crun_append, cmdRises_append]
      obtain ⟨u1, u2, u3, u4, u5, u6⟩ := unit_fields s hp
      rw [crun_single, cstep_cmain]
      have hbc : (crun unitEvs s).command = false := by rw [u2, hcmd]
      by_cases hn : n = 0
      · subst hn
        have hz : (crun unitEvs s).longDelay = 0 := by
          rw [u5, hld]
        obtain ⟨w1, w2, w3, w4, w5⟩ := cmain_waitend_emit_fields false true (crun unitEvs s)
          (by rw [u1]; exact hst) rfl hz
        have hrest : List.flatten (List.replicate 0 (unitEvs ++ [CEv.cmain false true]))
            = ([] : List CEv) := rfl
        rw [hrest, crun_nil]
        refine ⟨w1, w2, ?_, w4, ?_⟩
        · rw [w3, u4]
        · rw [u6]
          have hi : cmdRises [CEv.cmain false true] (crun unitEvs s) = 1 := by
            rw [cmdRises_cons, cstep_cmain, w2, hbc]
            simp [cmdRises]
          rw [hi]
          rfl
      · have hnz : (crun unitEvs s).longDelay ≠ 0 := by
          rw [u5, hld]
          omega
        have hhold := cmain_waitend_hold false true (crun unitEvs s) (by rw [u1]; exact hst)
          rfl hnz
        rw [hhold]
        obtain ⟨g1, g2, g3, g4, g5⟩ := ih (crun unitEvs s) (by omega)
          (by rw [u1]; exact hst) hbc u4
          (by rw [u5, hld]; omega)
        refine ⟨g1, g2, g3, g4, ?_⟩
        rw [u6, g5]
        have hi : cmdRises [CEv.cmain false true] (crun unitEvs s) = 0 := by
          rw [cmdRises_cons, cstep_cmain, hhold, hbc]
          simp [cmdRises]
        rw [hi]

end RfMotor

namespace RfMotor

/-- C4: for the command confirmation machine (RfDetConfirmSt with RfLongDelay
decremented once per prescaler expiration of Timer_A): (i) as long as fewer
prescaler expirations than VALIDATE_RF have occurred, a continuously detected
carrier never makes Command true; (ii) on the canonical schedule -- a detected
carrier observed at rest, held through VALIDATE_RF long-delay units, then
absent through WAITEND_RF long-delay units -- Command becomes true, rising
exactly once, and the machine enters IGNORE armed with IGNORE_RF; (iii) from
IGNORE, no new command is confirmed while fewer prescaler expirations than the
remaining ignore delay have occurred. -/
theorem C4_command_confirmation :
    (∀ (evs : List CEv) (s : CSt), s.st = IDLE → s.command = false →
        allDetTrue evs → fires s.prescaler evs < VALIDATE_RF →
        (crun evs s).command = false) ∧
    ((crun confirmEvs cInit).command = true ∧ (crun confirmEvs cInit).st = IGNORE ∧
     (crun confirmEvs cInit).longDelay = IGNORE_RF ∧
     (crun confirmEvs cInit).prescaler = PRESCALER ∧
     cmdRises confirmEvs cInit = 1) ∧
    (∀ (evs : List CEv) (s : CSt), s.st = IGNORE →
        fires s.prescaler evs < s.longDelay →
        (crun evs s).st = IGNORE ∧ cmdRises evs s = 0) := by
  refine ⟨?_, ?_, ?_⟩
  · intro evs s hst hcmd hall hf
    exact conf_pulse_safe evs s hcmd (Or.inl ⟨hst, hf⟩) hall
  · have hs1 : cstep (CEv.cmain true true) cInit =
        { cInit with longDelay := VALIDATE_RF, st := VALIDATE } := by
      rw [cstep_cmain, cmain_idle_go true true cInit rfl rfl rfl]
    obtain ⟨v1, v2, v3, v4, v5⟩ := val_phases VALIDATE_RF
      { cInit with longDelay := VALIDATE_RF, st := VALIDATE }
      (by decide) rfl rfl rfl rfl
    obtain ⟨w1, w2, w3, w4, w5⟩ := wait_phases WAITEND_RF
      (crun (List.flatten (List.replicate VALIDATE_RF (unitEvs ++ [CEv.cmain true true])))
        { cInit with longDelay := VALIDATE_RF, st := VALIDATE })
      (by decide) v1 v2 v3 v4
    have hun : confirmEvs = CEv.cmain true true ::
        (List.flatten (List.replicate VALIDATE_RF (unitEvs ++ [CEv.cmain true true])) ++
         List.flatten (List.replicate WAITEND_RF (unitEvs ++ [CEv.cmain false true]))) := rfl
    rw [hun, crun_cons, hs1, crun_append, cmdRises_cons, cmdRises_append, hs1]
    refine ⟨w2, w1, w4, w3, ?_⟩
    rw [v5, w5]
    decide
  · intro evs s hst hf
    exact conf_ignore_safe evs s hst hf

/-- Concrete instances of C4: a single detected observation from Init leaves
Command false, and a tick in the IGNORE state freshly armed with IGNORE_RF
stays in IGNORE with no command rise. -/
theorem C4_command_confirmation_witness :
    ((crun [CEv.cmain true true] cInit).command = false) ∧
    ((crun [CEv.ctick] { cInit with st := IGNORE, longDelay := IGNORE_RF }).st = IGNORE ∧
      cmdRises [CEv.ctick] { cInit with st := IGNORE, longDelay := IGNORE_RF } = 0) := by
  refine ⟨?_, ?_⟩
  · exact C4_command_confirmation.1 [CEv.cmain true true] cInit rfl rfl
      (by intro d p h; simp at h; exact h.1) (by decide)
  · exact C4_command_confirmation.2.2 [CEv.ctick]
      { cInit with st := IGNORE, longDelay := IGNORE_RF } rfl (by decide)

end RfMotor
